import Mathlib

/-!
Verification development for the `manage.py` utility of the
tokenscript-compliance-suite repository: a shallow embedding of its
template generator, editor-content scanner, editor launcher and
persistence logic, together with theorems settling the specification
claims about them.

Machine text is modelled as Lean `String`s; Python line and character
operations (`str.split`, `str.strip`, `str.startswith`, dict assignment,
and so on) are embedded as executable definitions over `String.data`.
The JSON encoder/decoder used by the program (`json.loads`,
`json.dumps`) is an external library primitive; it is embedded here as
an executable recursive-descent parser and printer for the JSON subset
the program manipulates (numbers are kept as raw lexemes, since the
tool never computes with them).
-/

/-- Python whitespace, as recognized by `str.strip()`. -/
def isPySpace (c : Char) : Bool :=
  c = ' ' || c = '\t' || c = '\n' || c = '\r' || c = '\x0b' || c = '\x0c'

/-- Split a character list at each newline, mirroring Python `s.split('\n')`:
the result always has one more element than the number of newlines. -/
def splitLines : List Char → List (List Char)
  | [] => [[]]
  | c :: rest =>
    if c = '\n' then [] :: splitLines rest
    else
      match splitLines rest with
      | [] => [[c]]
      | l :: ls => (c :: l) :: ls

/-- Python `user_input.split('\n')`. -/
def pySplitLines (s : String) : List String :=
  (splitLines s.data).map String.mk

/-- Drop Python whitespace from the front (`str.lstrip()`). -/
def lstripChars (cs : List Char) : List Char := cs.dropWhile isPySpace

/-- Drop Python whitespace from the end (`str.rstrip()`). -/
def rstripChars (cs : List Char) : List Char := (cs.reverse.dropWhile isPySpace).reverse

/-- Python `str.strip()` on a character list. -/
def stripChars (cs : List Char) : List Char := rstripChars (lstripChars cs)

/-- Python `str.strip()`. -/
def pyStrip (s : String) : String := String.mk (stripChars s.data)

/-- Python `prefix in`-style `s.startswith(p)`. -/
def strStartsWith (s p : String) : Bool := p.data.isPrefixOf s.data

/-- Python `p.endswith(s)` as used for the `.json` suffix check. -/
def strEndsWith (s p : String) : Bool := p.data.isSuffixOf s.data

/-- Membership of a character in a character list. -/
def charElem (c : Char) : List Char → Bool
  | [] => false
  | d :: rest => c = d || charElem c rest

/-- Python `c in s` for a single character. -/
def pyContains (s : String) (c : Char) : Bool := charElem c s.data

/-- Python `s.split(sep, 1)` for a one-character separator, specialised to the
scanner's `line.split(":", 1)`: the part before the first colon and the part
after it.  (The scanner only calls it under the guard `":" in line`, which
makes the two-way unpacking safe; when no colon occurs this total version
returns the whole string and `""`.) -/
def splitFirstColon (s : String) : String × String :=
  (String.mk (s.data.takeWhile (fun c => !(c = ':'))),
   String.mk ((s.data.dropWhile (fun c => !(c = ':'))).tail))

/-- Python `value.split("#")[0]`: the part before the first `#`. -/
def beforeHash (s : String) : String :=
  String.mk (s.data.takeWhile (fun c => !(c = '#')))

/-- Python `'\n'.join(section_content)`. -/
def joinNL : List String → String
  | [] => ""
  | [x] => x
  | x :: xs => x ++ "\n" ++ joinNL xs

/-- Python `s.lower()` (ASCII case folding; the tool only slugs ASCII names). -/
def pyLower (s : String) : String := String.mk (s.data.map Char.toLower)

/-! ### JSON values

The JSON model for `json.loads` / `json.dumps`.  Numbers are kept as their
raw lexemes (`numRaw`): `manage.py` never inspects or computes with numeric
context values, it only decodes and re-encodes them.  Objects keep their
members in document order, matching insertion-ordered Python dicts. -/

inductive JsonValue where
  | null : JsonValue
  | bool (b : Bool) : JsonValue
  | numRaw (lit : String) : JsonValue
  | str (s : String) : JsonValue
  | arr (elems : List JsonValue) : JsonValue
  | obj (members : List (String × JsonValue)) : JsonValue

/-- JSON document whitespace accepted between tokens by `json.loads`. -/
def isJsonWs (c : Char) : Bool :=
  c = ' ' || c = '\t' || c = '\n' || c = '\r'

/-- Skip JSON whitespace. -/
def skipJsonWs (cs : List Char) : List Char := cs.dropWhile isJsonWs

/-- Decode four hex digits of a `\uXXXX` escape. -/
def hexVal (c : Char) : Option Nat :=
  if '0' ≤ c ∧ c ≤ '9' then some (c.toNat - '0'.toNat)
  else if 'a' ≤ c ∧ c ≤ 'f' then some (c.toNat - 'a'.toNat + 10)
  else if 'A' ≤ c ∧ c ≤ 'F' then some (c.toNat - 'A'.toNat + 10)
  else none

/-- Scan the body of a JSON string literal (after the opening quote), returning
the decoded text and the remaining characters after the closing quote.
Handles the standard single-character escapes and BMP `\uXXXX` escapes
(surrogate halves are rejected; the modelled subset does not cover astral
characters split across surrogate pairs). -/
def scanJsonStringBody : List Char → Option (List Char × List Char)
  | [] => none
  | '"' :: rest => some ([], rest)
  | '\\' :: 'u' :: h1 :: h2 :: h3 :: h4 :: rest =>
    match hexVal h1, hexVal h2, hexVal h3, hexVal h4 with
    | some a, some b, some c, some d =>
      let n := ((a * 16 + b) * 16 + c) * 16 + d
      if 0xd800 ≤ n ∧ n ≤ 0xdfff then none
      else
        match scanJsonStringBody rest with
        | some (body, rem) => some (Char.ofNat n :: body, rem)
        | none => none
    | _, _, _, _ => none
  | '\\' :: e :: rest =>
    let dec : Option Char :=
      if e = '"' then some '"'
      else if e = '\\' then some '\\'
      else if e = '/' then some '/'
      else if e = 'b' then some '\x08'
      else if e = 'f' then some '\x0c'
      else if e = 'n' then some '\n'
      else if e = 'r' then some '\r'
      else if e = 't' then some '\t'
      else none
    match dec with
    | some c =>
      match scanJsonStringBody rest with
      | some (body, rem) => some (c :: body, rem)
      | none => none
    | none => none
  | c :: rest =>
    if c.toNat < 0x20 then none
    else
      match scanJsonStringBody rest with
      | some (body, rem) => some (c :: body, rem)
      | none => none

/-- Scan a JSON number lexeme per the JSON grammar (`-? int frac? exp?`),
returning the raw lexeme and the rest.  Mirrors the strictness of
`json.loads` (no leading zeros, at least one digit in each part). -/
def scanJsonNumber (cs : List Char) : Option (List Char × List Char) :=
  let afterSign : List Char × List Char :=
    match cs with
    | '-' :: rest => (['-'], rest)
    | _ => ([], cs)
  let sign := afterSign.1
  let csInt := afterSign.2
  let intPart : Option (List Char × List Char) :=
    match csInt with
    | '0' :: rest => some (['0'], rest)
    | c :: rest =>
      if c.isDigit then
        some (c :: rest.takeWhile Char.isDigit, rest.dropWhile Char.isDigit)
      else none
    | [] => none
  match intPart with
  | none => none
  | some (ip, afterInt) =>
    let fracPart : Option (List Char × List Char) :=
      match afterInt with
      | '.' :: c :: rest =>
        if c.isDigit then
          some ('.' :: c :: rest.takeWhile Char.isDigit, rest.dropWhile Char.isDigit)
        else none
      | _ => some ([], afterInt)
    match fracPart with
    | none => none
    | some (fp, afterFrac) =>
      let expPart : Option (List Char × List Char) :=
        match afterFrac with
        | e :: rest =>
          if e = 'e' ∨ e = 'E' then
            let signed : List Char × List Char :=
              match rest with
              | '+' :: r => (['+'], r)
              | '-' :: r => (['-'], r)
              | _ => ([], rest)
            let ds := signed.2.takeWhile Char.isDigit
            if ds = [] then none
            else some (e :: signed.1 ++ ds, signed.2.dropWhile Char.isDigit)
          else some ([], afterFrac)
        | [] => some ([], afterFrac)
      match expPart with
      | none => none
      | some (ep, rest) => some (sign ++ ip ++ fp ++ ep, rest)

/-- The three productions of the recursive-descent JSON reader: a value, the
items of a non-empty array (after the opening bracket), or the members of a
non-empty object (after the opening brace). -/
inductive JsonMode where
  | value : JsonMode
  | arrayItems : JsonMode
  | objectItems : JsonMode

/-- Recursive-descent JSON parser, structurally recursive on a fuel bound
(every recursive call strictly decreases the fuel, and at least one input
character is consumed for every two fuel steps, so a fuel of twice the
input length plus two always suffices). -/
def parseJson : Nat → JsonMode → List Char → Option (JsonValue × List Char)
  | 0, _, _ => none
  | fuel + 1, JsonMode.value, cs =>
    (match skipJsonWs cs with
     | 'n' :: 'u' :: 'l' :: 'l' :: rest => some (JsonValue.null, rest)
     | 't' :: 'r' :: 'u' :: 'e' :: rest => some (JsonValue.bool true, rest)
     | 'f' :: 'a' :: 'l' :: 's' :: 'e' :: rest => some (JsonValue.bool false, rest)
     | '"' :: rest =>
       (match scanJsonStringBody rest with
        | some (body, rem) => some (JsonValue.str (String.mk body), rem)
        | none => none)
     | '[' :: rest =>
       (match skipJsonWs rest with
        | ']' :: rem => some (JsonValue.arr [], rem)
        | other => parseJson fuel JsonMode.arrayItems other)
     | '{' :: rest =>
       (match skipJsonWs rest with
        | '}' :: rem => some (JsonValue.obj [], rem)
        | other => parseJson fuel JsonMode.objectItems other)
     | other => (scanJsonNumber other).map (fun p => (JsonValue.numRaw (String.mk p.1), p.2)))
  | fuel + 1, JsonMode.arrayItems, cs =>
    (match parseJson fuel JsonMode.value cs with
     | none => none
     | some (v, rest) =>
       match skipJsonWs rest with
       | ',' :: rest2 =>
         (match parseJson fuel JsonMode.arrayItems rest2 with
          | some (JsonValue.arr vs, rem) => some (JsonValue.arr (v :: vs), rem)
          | _ => none)
       | ']' :: rem => some (JsonValue.arr [v], rem)
       | _ => none)
  | fuel + 1, JsonMode.objectItems, cs =>
    (match skipJsonWs cs with
     | '"' :: rest =>
       (match scanJsonStringBody rest with
        | none => none
        | some (key, afterKey) =>
          match skipJsonWs afterKey with
          | ':' :: afterColon =>
            (match parseJson fuel JsonMode.value afterColon with
             | none => none
             | some (v, rest2) =>
               match skipJsonWs rest2 with
               | ',' :: rest3 =>
                 (match parseJson fuel JsonMode.objectItems rest3 with
                  | some (JsonValue.obj ms, rem) => some (JsonValue.obj ((String.mk key, v) :: ms), rem)
                  | _ => none)
               | '}' :: rem => some (JsonValue.obj [(String.mk key, v)], rem)
               | _ => none)
          | _ => none)
     | _ => none)

/-- Python `json.loads`: parse one JSON document and require only whitespace
after it. -/
def pyJsonLoads (s : String) : Option JsonValue :=
  match parseJson (2 * s.data.length + 2) JsonMode.value s.data with
  | some (v, rest) => if skipJsonWs rest = [] then some v else none
  | none => none

/-- Lowercase hex digits of `n` (4 digits), for `\uXXXX` escapes. -/
def hexDigit (n : Nat) : Char :=
  if n < 10 then Char.ofNat ('0'.toNat + n) else Char.ofNat ('a'.toNat + (n - 10))

/-- Four-digit lowercase hex rendering used by `json.dumps` escapes. -/
def hex4 (n : Nat) : String :=
  String.mk [hexDigit (n / 4096 % 16), hexDigit (n / 256 % 16), hexDigit (n / 16 % 16), hexDigit (n % 16)]

/-- Escape one character the way `json.dumps` (with its default
`ensure_ascii=True`) renders it inside a string literal. -/
def escapeJsonChar (c : Char) : String :=
  if c = '"' then "\\\""
  else if c = '\\' then "\\\\"
  else if c = '\n' then "\\n"
  else if c = '\t' then "\\t"
  else if c = '\r' then "\\r"
  else if c = '\x08' then "\\b"
  else if c = '\x0c' then "\\f"
  else if c.toNat < 0x20 ∨ c.toNat > 0x7e then
    if c.toNat ≤ 0xffff then "\\u" ++ hex4 c.toNat
    else
      "\\u" ++ hex4 (0xd800 + (c.toNat - 0x10000) / 0x400) ++
      "\\u" ++ hex4 (0xdc00 + (c.toNat - 0x10000) % 0x400)
  else String.mk [c]

/-- Render a JSON string literal as `json.dumps` does. -/
def dumpJsonString (s : String) : String :=
  "\"" ++ String.join (s.data.map escapeJsonChar) ++ "\""

/-- The `indent`-mode padding of `json.dumps(..., indent=2)`. -/
def indentPad (level : Nat) : String := String.mk (List.replicate (2 * level) ' ')

mutual

/-- Python `json.dumps(v, indent=2)` at nesting depth `level`: empty
containers print inline, non-empty ones one item per line, items separated
by `",\n"` and `": "` between keys and values (the `indent` defaults). -/
def dumpJson2 (level : Nat) : JsonValue → String
  | JsonValue.null => "null"
  | JsonValue.bool true => "true"
  | JsonValue.bool false => "false"
  | JsonValue.numRaw lit => lit
  | JsonValue.str s => dumpJsonString s
  | JsonValue.arr [] => "[]"
  | JsonValue.arr (v :: vs) =>
    "[\n" ++ dumpJson2ArrayItems level (v :: vs) ++ "\n" ++ indentPad level ++ "]"
  | JsonValue.obj [] => "\x7b\x7d"
  | JsonValue.obj (m :: ms) =>
    "\x7b\n" ++ dumpJson2ObjectItems level (m :: ms) ++ "\n" ++ indentPad level ++ "\x7d"

/-- Items of a non-empty array under `indent=2`. -/
def dumpJson2ArrayItems (level : Nat) : List JsonValue → String
  | [] => ""
  | [v] => indentPad (level + 1) ++ dumpJson2 (level + 1) v
  | v :: vs => indentPad (level + 1) ++ dumpJson2 (level + 1) v ++ ",\n" ++ dumpJson2ArrayItems level vs

/-- Members of a non-empty object under `indent=2`. -/
def dumpJson2ObjectItems (level : Nat) : List (String × JsonValue) → String
  | [] => ""
  | [(k, v)] => indentPad (level + 1) ++ dumpJsonString k ++ ": " ++ dumpJson2 (level + 1) v
  | (k, v) :: ms =>
    indentPad (level + 1) ++ dumpJsonString k ++ ": " ++ dumpJson2 (level + 1) v ++ ",\n" ++
    dumpJson2ObjectItems level ms

end

/-- Python `json.dumps(v, indent=2)` as called at `manage.py` line 70. -/
def pyJsonDumps2 (v : JsonValue) : String := dumpJson2 0 v

/-! ### The editor-content scanner (`parse_editor_content`, lines 100-159)

The scanner walks the edited text line by line with a current-section
state (`none`, `input` or `expectedOutput`), a buffer of collected section
lines, an insertion-ordered record of `key: value` data, and the pending
context source text.  Record values are strings while scanning; the decoded
context JSON is added at the end, so record values are modelled by `PyVal`. -/

inductive PyVal where
  | str (s : String) : PyVal
  | json (v : JsonValue) : PyVal

/-- The two delimited sections of the template (the keys of the scanner's
`sections` dict, in its iteration order: `input` first). -/
inductive Sect where
  | input : Sect
  | expectedOutput : Sect
deriving DecidableEq

/-- `sections[s]["start"]`. -/
def startMarkerOf : Sect → String
  | Sect.input => "# START_INPUT"
  | Sect.expectedOutput => "# START_EXPECTED_OUTPUT"

/-- `sections[s]["end"]`. -/
def endMarkerOf : Sect → String
  | Sect.input => "# END_INPUT"
  | Sect.expectedOutput => "# END_EXPECTED_OUTPUT"

/-- The record key a section's text is stored under (the dict key itself). -/
def sectKeyOf : Sect → String
  | Sect.input => "input"
  | Sect.expectedOutput => "expectedOutput"

/-- Python dict assignment `d[k] = v` on an insertion-ordered association
list: replace in place when the key is present, append when absent. -/
def dictSet {α : Type} (d : List (String × α)) (k : String) (v : α) : List (String × α) :=
  if (d.lookup k).isSome then
    d.map (fun p => if p.1 = k then (k, v) else p)
  else d ++ [(k, v)]

/-- The scanner's mutable state across the line loop. -/
structure ScanState where
  testData : List (String × PyVal)
  contextJson : String
  currentSection : Option Sect
  sectionContent : List String

/-- State at loop entry: empty record, context source `"{}"`, no section. -/
def initScanState : ScanState :=
  { testData := [], contextJson := "\x7b\x7d", currentSection := none, sectionContent := [] }

/-- The body of the end-marker branch (lines 125-129): when a section is
active, join its buffered lines with newlines, strip the result, store it
under the active section's key and leave section state; otherwise no-op. -/
def closeSection (st : ScanState) : ScanState :=
  match st.currentSection with
  | some s =>
    { st with
      testData := dictSet st.testData (sectKeyOf s) (PyVal.str (pyStrip (joinNL st.sectionContent))),
      currentSection := none }
  | none => st

/-- The `for section, markers in sections.items()` loop (lines 119-130):
the four marker comparisons in dict order, each arm followed by `break`.
Note the end-marker arms close whichever section is currently active. -/
def markerPhase (st : ScanState) (ls : String) : ScanState :=
  if ls = "# START_INPUT" then
    { st with currentSection := some Sect.input, sectionContent := [] }
  else if ls = "# END_INPUT" then closeSection st
  else if ls = "# START_EXPECTED_OUTPUT" then
    { st with currentSection := some Sect.expectedOutput, sectionContent := [] }
  else if ls = "# END_EXPECTED_OUTPUT" then closeSection st
  else st

/-- Lines 132-135: while inside a section, buffer the raw line unless its
stripped form is a comment or one of the active section's own markers. -/
def collectPhase (st : ScanState) (line ls : String) : ScanState :=
  match st.currentSection with
  | some s =>
    if strStartsWith ls "#" = false ∧ ¬ls = startMarkerOf s ∧ ¬ls = endMarkerOf s then
      { st with sectionContent := st.sectionContent ++ [line] }
    else st
  | none => st

/-- Lines 137-150: outside a section, a non-comment line containing a colon
is a `key: value` declaration.  `expectedOutputType` always overwrites (with
its inline comment stripped); other keys are stored only on first occurrence
and only when not `context` or a section key; a `context` key updates the
pending context source text. -/
def keyValuePhase (st : ScanState) (line ls : String) : ScanState :=
  match st.currentSection with
  | some _ => st
  | none =>
    if pyContains line ':' = true ∧ strStartsWith ls "#" = false then
      let kv := splitFirstColon line
      let key := pyStrip kv.1
      let value := pyStrip kv.2
      let st1 :=
        if key = "expectedOutputType" then
          { st with testData := dictSet st.testData key (PyVal.str (pyStrip (beforeHash value))) }
        else if (st.testData.lookup key).isNone ∧ ¬key = "context" ∧
            ¬key = "input" ∧ ¬key = "expectedOutput" then
          { st with testData := dictSet st.testData key (PyVal.str value) }
        else st
      if key = "context" then { st1 with contextJson := value } else st1
    else st

/-- One iteration of the scanner's line loop (lines 115-150); the stripped
line `line_stripped` of line 116 is `pyStrip line`, passed to each phase. -/
def stepLine (st : ScanState) (line : String) : ScanState :=
  keyValuePhase (collectPhase (markerPhase st (pyStrip line)) line (pyStrip line)) line (pyStrip line)

/-- The whole line loop over `user_input.split('\n')`. -/
def scanLines (user_input : String) : ScanState :=
  (pySplitLines user_input).foldl stepLine initScanState

/-- The fatal diagnostic of lines 155-157 (`print` + `sys.exit(1)`). -/
structure ParseFatal where
  code : Nat
  message : String

/-- `parse_editor_content` (lines 100-159): scan the lines, then decode the
pending context source as JSON.  Decode failure prints a diagnostic and
terminates the process with status 1 (modelled as the `error` branch);
success stores the decoded value under `context` and returns the record. -/
def parse_editor_content (user_input : String) : Except ParseFatal (List (String × PyVal)) :=
  match pyJsonLoads (scanLines user_input).contextJson with
  | some v => Except.ok (dictSet (scanLines user_input).testData "context" (PyVal.json v))
  | none =>
    Except.error { code := 1, message := "Error parsing context JSON. Please check the format." }

/-- The field a parse stores under key `k`, for concrete evaluations
(`none` both when the key is absent and when parsing aborted). -/
def parsedField (user_input k : String) : Option PyVal :=
  match parse_editor_content user_input with
  | Except.ok d => d.lookup k
  | Except.error _ => none

/-! ### The template generator (`generate_editor_template`, lines 36-97) -/

/-- A test record as loaded from a JSON test file in edit mode, restricted
to the shape the generator reads: the four standard fields (plus the
legacy misspelled output-type key) as optional strings and the `context`
member as an optional JSON value.  `test_data.get(key, default)` is
`Option.getD` on the corresponding field. -/
structure LoadedRecord where
  name : Option String
  input : Option String
  expectedOutput : Option String
  expectedOutputType : Option String
  exceptedOutputType : Option String
  context : Option JsonValue

/-- Python `a or b` on strings: `b` when `a` is falsy (empty). -/
def pyOrStr (a b : String) : String := if a = "" then b else a

/-- The newline-join of a list of template lines: exactly the text of an
f-string written one line per element (with a trailing newline rendered as
a final empty element). -/
def templateOfLines (lines : List String) : String := joinNL lines

/-- `generate_editor_template` (lines 36-97).  With no record, the fixed
creation scaffold (lines 40-66, one string literal).  With a record, the
f-string of lines 76-97: each list element below is one line of that
f-string, with the interpolated fields spliced in exactly where the
f-string puts them; `output_type` is the legacy key's value when that is
non-empty, else the canonical key's value (line 73), and `context_str` is
the context pretty-printed with `json.dumps(..., indent=2)` (line 70). -/
def generate_editor_template (td : Option LoadedRecord) : String :=
  match td with
  | none =>
    "# Edit the test details below. Lines starting with # will be ignored.\n# Save and close the editor when done.\n\nname: Test name here\n\n# For input expression, write it between the START and END markers below\n# You can use multiple lines for complex TokenScript expressions\n# START_INPUT\nYour TokenScript expression here\n# END_INPUT\n\n# For expected output, write it between the START and END markers below\n# START_EXPECTED_OUTPUT\nExpected result here\n# END_EXPECTED_OUTPUT\n\nexpectedOutputType: Number # or String, Boolean, etc.\n\n# Context (variables) section - use JSON format\n# Remove the \x7b\x7d and add your context variables if needed, e.g.:\n# \x7b\n#   \"x\": 3,\n#   \"y\": \"hello\"\n# \x7d\ncontext: \x7b\x7d\n"
  | some r =>
    let context_str := pyJsonDumps2 (r.context.getD (JsonValue.obj []))
    let output_type := pyOrStr (r.exceptedOutputType.getD "") (r.expectedOutputType.getD "")
    templateOfLines
      ["# Edit the test details below. Lines starting with # will be ignored.",
       "# Save and close the editor when done.",
       "",
       "name: " ++ r.name.getD "Test name here",
       "",
       "# For input expression, write it between the START and END markers below",
       "# You can use multiple lines for complex TokenScript expressions",
       "# START_INPUT",
       r.input.getD "Your TokenScript expression here",
       "# END_INPUT",
       "",
       "# For expected output, write it between the START and END markers below",
       "# START_EXPECTED_OUTPUT",
       r.expectedOutput.getD "Expected result here",
       "# END_EXPECTED_OUTPUT",
       "",
       "expectedOutputType: " ++ output_type ++ " # or String, Boolean, etc.",
       "",
       "# Context (variables) section - use JSON format",
       "context: " ++ context_str,
       ""]

/-! ### The editor launcher (`get_user_input_with_editor`, lines 12-33)

The subprocess and filesystem are external collaborators; the launcher's
control flow is embedded over an environment recording how they behave on
this invocation.  `tempDeleted` records whether `os.unlink(temp_path)` ran
before control left the function. -/

/-- How `subprocess.check_call([editor, temp_path])` turns out. -/
inductive EditorOutcome where
  | success : EditorOutcome
  | nonZeroExit : EditorOutcome
  | progMissing : EditorOutcome
deriving DecidableEq

/-- One invocation's external behavior: the editor subprocess outcome, and
the content read back from the temporary file afterwards (`none` when the
file has become unreadable, making `open` raise). -/
structure EditorEnv where
  outcome : EditorOutcome
  readBack : Option String

/-- How the launcher hands control back: a normal return carrying
`content` (`none` models the `return None` of the non-zero-exit branch),
or a propagating exception named after its Python class. -/
inductive LaunchResult where
  | returned (content : Option String) (tempDeleted : Bool) : LaunchResult
  | raised (exn : String) (tempDeleted : Bool) : LaunchResult

/-- `get_user_input_with_editor` (lines 12-33).  A non-zero editor exit is
caught as `CalledProcessError`: the temp file is unlinked and `None`
returned (line 24-27).  A missing editor program makes `check_call` raise
`FileNotFoundError`, which the `except` clause does not catch, so the
exception propagates with no unlink.  On success the file is re-read; a
read failure raises `OSError` before the line-32 unlink, while a successful
read is followed by the unlink and the content is returned. -/
def get_user_input_with_editor (env : EditorEnv) : LaunchResult :=
  match env.outcome with
  | EditorOutcome.nonZeroExit => LaunchResult.returned none true
  | EditorOutcome.progMissing => LaunchResult.raised "FileNotFoundError" false
  | EditorOutcome.success =>
    match env.readBack with
    | none => LaunchResult.raised "OSError" false
    | some content => LaunchResult.returned (some content) true

/-- Whether the temporary file was removed before the launcher gave back
control. -/
def tempFileDeleted : LaunchResult → Bool
  | LaunchResult.returned _ d => d
  | LaunchResult.raised _ d => d

/-! ### Persistence (`create_or_edit_test`, lines 228-276) -/

/-- Lines 268-270: rename the misspelled output-type key to the canonical
one, but only when the canonical key is absent. `pop` removes the
misspelled entry; the subsequent dict assignment appends the canonical key
(it was absent, so it lands at the end). -/
def fixMisspelled (d : List (String × PyVal)) : List (String × PyVal) :=
  if (d.lookup "exceptedOutputType").isSome ∧ (d.lookup "expectedOutputType").isNone then
    match d.lookup "exceptedOutputType" with
    | some v => dictSet (d.filter (fun p => !(p.1 = "exceptedOutputType"))) "expectedOutputType" v
    | none => d
  else d

/-- `test_data.get("name", "new_test")` as used for the filename slug; the
scanner only ever stores string values under `name`. -/
def getNameStrD (d : List (String × PyVal)) : String :=
  match d.lookup "name" with
  | some (PyVal.str s) => s
  | _ => "new_test"

/-- The part of `create_or_edit_test`'s environment that is external to the
parsing logic: mode and CLI arguments, whether the resolved target file
already exists, and the user's answer to the overwrite prompt. -/
structure SaveEnv where
  editMode : Bool
  testPath : Option String
  category : String
  filenameArg : Option String
  targetExists : Bool
  overwriteAnswer : String

/-- How a create/edit invocation ends after the editor returns: a
`sys.exit(code)` with its printed message, or a record written to a path. -/
inductive SaveOutcome where
  | exited (code : Nat) (message : String) : SaveOutcome
  | wrote (path : String) (record : List (String × PyVal)) : SaveOutcome

/-- Lines 239-259: resolve the target path for a new test: explicit
`--filename`, else the record's name lower-cased with spaces replaced by
underscores; add `.json` when missing; place under `tests/<category>/`. -/
def resolveCreatePath (env : SaveEnv) (td : List (String × PyVal)) : String :=
  let filename :=
    match env.filenameArg with
    | some f => f
    | none => (pyLower (getNameStrD td)).replace " " "_"
  let filename := if strEndsWith filename ".json" then filename else filename ++ ".json"
  "tests/" ++ env.category ++ "/" ++ filename

/-- `create_or_edit_test` from the point the editor's text is in hand
(lines 228-276), paired with whether the overwrite prompt was shown.
Empty editor text exits 1 (lines 229-231); then the text is parsed (a
context-JSON failure exits inside the parse); in edit mode with a path the
target is that path with no existence check, otherwise the create branch
resolves a path and, when the file exists, prompts — any answer not
starting with `y`/`Y` cancels with exit status 0.  Finally the misspelled
output-type key is fixed up and the record written as JSON. -/
def create_or_edit_save (env : SaveEnv) (user_input : String) : SaveOutcome × Bool :=
  if user_input = "" then (SaveOutcome.exited 1 "No input provided. Exiting.", false)
  else
    match parse_editor_content user_input with
    | Except.error f => (SaveOutcome.exited f.code f.message, false)
    | Except.ok td =>
      if env.editMode = true ∧ env.testPath.isSome then
        (SaveOutcome.wrote (env.testPath.getD "") (fixMisspelled td), false)
      else
        if env.targetExists then
          if strStartsWith (pyLower env.overwriteAnswer) "y" then
            (SaveOutcome.wrote (resolveCreatePath env td) (fixMisspelled td), true)
          else (SaveOutcome.exited 0 "Operation cancelled.", true)
        else (SaveOutcome.wrote (resolveCreatePath env td) (fixMisspelled td), false)

/-! ### Auxiliary definitions for the statements and proofs -/

/-- Character-level mirror of `joinNL`, for reasoning about line joins. -/
def charJoin : List (List Char) → List Char
  | [] => []
  | [x] => x
  | x :: xs => x ++ '\n' :: charJoin xs

/-- The lines of the edit-mode template from its `# START_INPUT` line on,
with input `i`, expected output `o`, output type `t` and an empty context
object. -/
def templateTailLines (i o t : String) : List String :=
  ["# START_INPUT"] ++ pySplitLines i ++
    ["# END_INPUT", "",
     "# For expected output, write it between the START and END markers below",
     "# START_EXPECTED_OUTPUT"] ++ pySplitLines o ++
    ["# END_EXPECTED_OUTPUT", "",
     "expectedOutputType: " ++ t ++ " # or String, Boolean, etc.", "",
     "# Context (variables) section - use JSON format",
     "context: \x7b\x7d", ""]

/-- A value survives a trip through a template section unchanged exactly when
it carries no leading/trailing whitespace and none of its lines would be
mistaken for a comment: such lines are buffered verbatim by the scanner. -/
def plainSectionText (s : String) : Prop :=
  pyStrip s = s ∧ ∀ l ∈ pySplitLines s, strStartsWith (pyStrip l) "#" = false

/-- A value survives the `expectedOutputType:` line unchanged exactly when it
is a single stripped line with no `#` (the scanner truncates at `#`). -/
def plainTypeText (t : String) : Prop :=
  pyStrip t = t ∧ pyContains t '\n' = false ∧ pyContains t '#' = false

/-! ### Lemmas: character lists, line splitting, stripping -/

theorem charElem_append (c : Char) (a b : List Char) :
    charElem c (a ++ b) = (charElem c a || charElem c b) := by
  induction a with
  | nil => simp [charElem]
  | cons d rest ih => simp [charElem, ih, Bool.or_assoc]

theorem splitLines_ne_nil (cs : List Char) : splitLines cs ≠ [] := by
  induction cs with
  | nil => simp [splitLines]
  | cons c rest ih =>
    simp only [splitLines]
    by_cases h : c = '\n'
    · simp [h]
    · simp only [if_neg h]
      rcases hr : splitLines rest with _ | ⟨l, ls⟩
      · simp
      · simp

theorem splitLines_append (a b : List Char) :
    splitLines (a ++ '\n' :: b) = splitLines a ++ splitLines b := by
  induction a with
  | nil => simp [splitLines]
  | cons c rest ih =>
    by_cases h : c = '\n'
    · subst h
      simp [splitLines, ih]
    · rcases hr : splitLines rest with _ | ⟨l, ls⟩
      · exact absurd hr (splitLines_ne_nil rest)
      · simp only [List.cons_append, splitLines, if_neg h, List.append_eq, ih, hr]

theorem splitLines_no_newline (a : List Char) (h : charElem '\n' a = false) :
    splitLines a = [a] := by
  induction a with
  | nil => rfl
  | cons c rest ih =>
    simp only [charElem, Bool.or_eq_false_iff] at h
    have hc : ¬c = '\n' := by
      intro hcc
      rw [hcc] at h
      simp at h
    simp only [splitLines, if_neg hc, ih h.2]

theorem charJoin_splitLines (cs : List Char) : charJoin (splitLines cs) = cs := by
  induction cs with
  | nil => rfl
  | cons c rest ih =>
    by_cases h : c = '\n'
    · subst h
      simp only [splitLines, if_pos rfl]
      rcases hr : splitLines rest with _ | ⟨l, ls⟩
      · exact absurd hr (splitLines_ne_nil rest)
      · rw [hr] at ih
        simp only [charJoin]
        rw [ih]
        simp
    · rcases hr : splitLines rest with _ | ⟨l, ls⟩
      · exact absurd hr (splitLines_ne_nil rest)
      · simp only [splitLines, if_neg h, hr]
        rw [hr] at ih
        rcases ls with _ | ⟨l2, ls2⟩
        · simp only [charJoin] at ih ⊢
          rw [ih]
        · simp only [charJoin, List.cons_append] at ih ⊢
          rw [ih]

theorem joinNL_map_mk (L : List (List Char)) :
    joinNL (L.map String.mk) = String.mk (charJoin L) := by
  induction L with
  | nil => rfl
  | cons x xs ih =>
    rcases xs with _ | ⟨y, ys⟩
    · rfl
    · simp only [List.map_cons, joinNL, charJoin] at ih ⊢
      rw [ih]
      apply String.ext
      simp [String.data_append]

theorem joinNL_pySplitLines (s : String) : joinNL (pySplitLines s) = s := by
  rw [pySplitLines, joinNL_map_mk, charJoin_splitLines]

theorem pySplitLines_append (a b : String) :
    pySplitLines (a ++ "\n" ++ b) = pySplitLines a ++ pySplitLines b := by
  simp only [pySplitLines]
  have h : (a ++ "\n" ++ b).data = a.data ++ '\n' :: b.data := by
    simp [String.data_append]
  rw [h, splitLines_append, List.map_append]

theorem pySplitLines_single (s : String) (h : pyContains s '\n' = false) :
    pySplitLines s = [s] := by
  simp only [pySplitLines, splitLines_no_newline s.data h, List.map_cons, List.map_nil]

theorem pySplitLines_joinNL (L : List String) (h : L ≠ []) :
    pySplitLines (joinNL L) = (L.map pySplitLines).flatten := by
  induction L with
  | nil => exact absurd rfl h
  | cons x xs ih =>
    rcases xs with _ | ⟨y, ys⟩
    · simp [joinNL]
    · have : joinNL (x :: y :: ys) = x ++ "\n" ++ joinNL (y :: ys) := rfl
      rw [this, pySplitLines_append, ih (by simp)]
      simp

theorem stripChars_self_parts (cs : List Char) (h : stripChars cs = cs) :
    lstripChars cs = cs ∧ rstripChars cs = cs := by
  have h1 : (lstripChars cs).length ≤ cs.length := (List.dropWhile_sublist _).length_le
  have h2 : (stripChars cs).length ≤ (lstripChars cs).length := by
    unfold stripChars rstripChars
    calc ((lstripChars cs).reverse.dropWhile isPySpace).reverse.length
        = ((lstripChars cs).reverse.dropWhile isPySpace).length := by simp
      _ ≤ (lstripChars cs).reverse.length := (List.dropWhile_sublist _).length_le
      _ = (lstripChars cs).length := by simp
  rw [h] at h2
  have hl : lstripChars cs = cs :=
    (List.dropWhile_sublist _).eq_of_length (le_antisymm h1 h2)
  refine ⟨hl, ?_⟩
  have h3 := h
  unfold stripChars at h3
  rw [hl] at h3
  exact h3

theorem lstrip_head_not_space (c : Char) (cs : List Char)
    (h : lstripChars (c :: cs) = c :: cs) : isPySpace c = false := by
  by_contra hc
  have hc2 : isPySpace c = true := by
    simpa using hc
  have : lstripChars (c :: cs) = cs.dropWhile isPySpace := by
    unfold lstripChars
    rw [List.dropWhile_cons, if_pos hc2]
  rw [this] at h
  have hlen := congrArg List.length h
  have : (cs.dropWhile isPySpace).length ≤ cs.length := (List.dropWhile_sublist _).length_le
  simp at hlen
  omega

theorem stripChars_cons_of_not_space (c : Char) (cs : List Char) (hc : isPySpace c = false) :
    stripChars (c :: cs) = c :: rstripChars cs := by
  unfold stripChars lstripChars rstripChars
  rw [List.dropWhile_cons, if_neg (by simp [hc])]
  rw [List.reverse_cons, List.dropWhile_append]
  by_cases he : (cs.reverse.dropWhile isPySpace).isEmpty
  · rw [if_pos he]
    have h0 : cs.reverse.dropWhile isPySpace = [] := by
      rwa [List.isEmpty_iff] at he
    rw [h0]
    simp [List.dropWhile, hc]
  · rw [if_neg he]
    simp

theorem rstrip_append_right (xs ys : List Char) (hy : rstripChars ys = ys) (hne : ys ≠ []) :
    rstripChars (xs ++ ys) = xs ++ ys := by
  unfold rstripChars at hy ⊢
  have hrev : ys.reverse.dropWhile isPySpace = ys.reverse := by
    have := congrArg List.reverse hy
    simpa using this
  rw [List.reverse_append, List.dropWhile_append, hrev]
  have hne2 : ys.reverse.isEmpty = false := by
    simp [List.isEmpty_iff, hne]
  rw [if_neg (by simp [hne2, List.isEmpty_iff, hne])]
  simp

theorem lstrip_append_left (xs ys : List Char) (hx : lstripChars xs = xs) (hne : xs ≠ []) :
    lstripChars (xs ++ ys) = xs ++ ys := by
  unfold lstripChars at hx ⊢
  rw [List.dropWhile_append, hx]
  rw [if_neg (by simp [List.isEmpty_iff, hne])]

theorem pyStrip_self_data (t : String) (h : pyStrip t = t) : stripChars t.data = t.data := by
  have := congrArg String.data h
  simpa [pyStrip] using this

/-! ### Lemmas: dict assignment and lookup -/

theorem lookup_map_set_self {α : Type} (d : List (String × α)) (k : String) (v : α)
    (h : (d.lookup k).isSome = true) :
    (d.map (fun p => if p.1 = k then (k, v) else p)).lookup k = some v := by
  induction d with
  | nil => simp [List.lookup] at h
  | cons a rest ih =>
    rcases a with ⟨a1, a2⟩
    by_cases hak : a1 = k
    · subst hak
      rw [List.map_cons, if_pos rfl]
      simp [List.lookup]
    · rw [List.map_cons, if_neg (by simpa using hak)]
      have hk2 : (k == a1) = false := by
        simp
        intro hkk
        exact hak hkk.symm
      simp only [List.lookup, hk2] at h ⊢
      exact ih h

theorem lookup_map_set_ne {α : Type} (d : List (String × α)) (k k2 : String) (v : α)
    (h : ¬k2 = k) :
    (d.map (fun p => if p.1 = k then (k, v) else p)).lookup k2 = d.lookup k2 := by
  have hk2 : (k2 == k) = false := by simp [h]
  induction d with
  | nil => simp
  | cons a rest ih =>
    rcases a with ⟨a1, a2⟩
    by_cases hak : a1 = k
    · subst hak
      rw [List.map_cons, if_pos rfl]
      simp only [List.lookup, hk2]
      exact ih
    · rw [List.map_cons, if_neg (by simpa using hak)]
      rcases hx : (k2 == a1) with _ | _
      · simp only [List.lookup, hx]
        exact ih
      · simp only [List.lookup, hx]

theorem lookup_append_single_self {α : Type} (d : List (String × α)) (k : String) (v : α)
    (h : d.lookup k = none) :
    (d ++ [(k, v)]).lookup k = some v := by
  induction d with
  | nil => simp [List.lookup]
  | cons a rest ih =>
    rcases a with ⟨a1, a2⟩
    rcases hx : (k == a1) with _ | _
    · simp only [List.lookup, hx] at h
      simp only [List.cons_append, List.lookup, hx]
      exact ih h
    · simp only [List.lookup, hx] at h
      exact absurd h (by simp)

theorem lookup_append_single_ne {α : Type} (d : List (String × α)) (k k2 : String) (v : α)
    (h : ¬k2 = k) :
    (d ++ [(k, v)]).lookup k2 = d.lookup k2 := by
  have hk2 : (k2 == k) = false := by simp [h]
  induction d with
  | nil => simp [List.lookup, hk2]
  | cons a rest ih =>
    rcases a with ⟨a1, a2⟩
    rcases hx : (k2 == a1) with _ | _
    · simp only [List.cons_append, List.lookup, hx]
      exact ih
    · simp only [List.cons_append, List.lookup, hx]

theorem lookup_dictSet_self {α : Type} (d : List (String × α)) (k : String) (v : α) :
    (dictSet d k v).lookup k = some v := by
  unfold dictSet
  by_cases h : (d.lookup k).isSome
  · rw [if_pos h]
    exact lookup_map_set_self d k v (by simpa using h)
  · rw [if_neg h]
    apply lookup_append_single_self
    rcases hk : d.lookup k with _ | w
    · rfl
    · rw [hk] at h
      simp at h

theorem lookup_dictSet_ne {α : Type} (d : List (String × α)) (k k2 : String) (v : α)
    (h : ¬k2 = k) :
    (dictSet d k v).lookup k2 = d.lookup k2 := by
  unfold dictSet
  by_cases hs : (d.lookup k).isSome
  · rw [if_pos hs]
    exact lookup_map_set_ne d k k2 v h
  · rw [if_neg hs]
    exact lookup_append_single_ne d k k2 v h

/-! ### Lemmas: single scanner steps -/

theorem not_marker_of_no_hash (ls : String) (h : strStartsWith ls "#" = false) :
    ¬ls = "# START_INPUT" ∧ ¬ls = "# END_INPUT" ∧
      ¬ls = "# START_EXPECTED_OUTPUT" ∧ ¬ls = "# END_EXPECTED_OUTPUT" := by
  refine ⟨?_, ?_, ?_, ?_⟩ <;> (rintro rfl; revert h; decide)

theorem markerPhase_inert (st : ScanState) (ls : String)
    (h1 : ¬ls = "# START_INPUT") (h2 : ¬ls = "# END_INPUT")
    (h3 : ¬ls = "# START_EXPECTED_OUTPUT") (h4 : ¬ls = "# END_EXPECTED_OUTPUT") :
    markerPhase st ls = st := by
  unfold markerPhase
  rw [if_neg h1, if_neg h2, if_neg h3, if_neg h4]

theorem stepLine_start (st : ScanState) (s : Sect) :
    stepLine st (startMarkerOf s) =
      { st with currentSection := some s, sectionContent := [] } := by
  obtain ⟨td, cj, cs0, sc⟩ := st
  cases s <;> rfl

theorem stepLine_end (st : ScanState) (s s2 : Sect) (hcs : st.currentSection = some s) :
    stepLine st (endMarkerOf s2) =
      { st with
        testData := dictSet st.testData (sectKeyOf s) (PyVal.str (pyStrip (joinNL st.sectionContent))),
        currentSection := none } := by
  obtain ⟨td, cj, cs0, sc⟩ := st
  simp only at hcs
  subst hcs
  cases s2 <;> rfl

theorem stepLine_end_none (st : ScanState) (s2 : Sect) (hcs : st.currentSection = none) :
    stepLine st (endMarkerOf s2) = st := by
  obtain ⟨td, cj, cs0, sc⟩ := st
  simp only at hcs
  subst hcs
  cases s2 <;> rfl

theorem stepLine_collect (st : ScanState) (s : Sect) (line : String)
    (hcs : st.currentSection = some s) (hsw : strStartsWith (pyStrip line) "#" = false) :
    stepLine st line = { st with sectionContent := st.sectionContent ++ [line] } := by
  obtain ⟨hm1, hm2, hm3, hm4⟩ := not_marker_of_no_hash _ hsw
  obtain ⟨td, cj, cs0, sc⟩ := st
  simp only at hcs
  subst hcs
  unfold stepLine
  rw [markerPhase_inert _ _ hm1 hm2 hm3 hm4]
  have hms : ¬pyStrip line = startMarkerOf s ∧ ¬pyStrip line = endMarkerOf s := by
    cases s
    · exact ⟨hm1, hm2⟩
    · exact ⟨hm3, hm4⟩
  unfold collectPhase
  simp only
  rw [if_pos ⟨hsw, hms.1, hms.2⟩]
  rfl

theorem stepLine_none_inert (st : ScanState) (line : String)
    (hcs : st.currentSection = none)
    (h1 : ¬pyStrip line = "# START_INPUT") (h2 : ¬pyStrip line = "# END_INPUT")
    (h3 : ¬pyStrip line = "# START_EXPECTED_OUTPUT") (h4 : ¬pyStrip line = "# END_EXPECTED_OUTPUT")
    (hkv : pyContains line ':' = false ∨ strStartsWith (pyStrip line) "#" = true) :
    stepLine st line = st := by
  obtain ⟨td, cj, cs0, sc⟩ := st
  simp only at hcs
  subst hcs
  unfold stepLine
  rw [markerPhase_inert _ _ h1 h2 h3 h4]
  unfold collectPhase
  simp only
  unfold keyValuePhase
  simp only
  rw [if_neg]
  rintro ⟨hc, hsw⟩
  rcases hkv with hx | hx
  · rw [hx] at hc
    exact absurd hc (by simp)
  · rw [hx] at hsw
    exact absurd hsw (by simp)

theorem takeWhile_append_of_all {α : Type} (p : α → Bool) (l1 l2 : List α)
    (h : ∀ a ∈ l1, p a = true) :
    (l1 ++ l2).takeWhile p = l1 ++ l2.takeWhile p := by
  induction l1 with
  | nil => simp
  | cons a rest ih =>
    have ha : p a = true := h a (by simp)
    simp only [List.cons_append, List.takeWhile_cons, ha, if_true]
    rw [ih (fun b hb => h b (by simp [hb]))]

theorem dropWhile_append_of_all {α : Type} (p : α → Bool) (l1 l2 : List α)
    (h : ∀ a ∈ l1, p a = true) :
    (l1 ++ l2).dropWhile p = l2.dropWhile p := by
  induction l1 with
  | nil => simp
  | cons a rest ih =>
    have ha : p a = true := h a (by simp)
    simp only [List.cons_append, List.dropWhile_cons, ha, if_true]
    exact ih (fun b hb => h b (by simp [hb]))

theorem charElem_false_forall (c : Char) (l : List Char) (h : charElem c l = false) :
    ∀ d ∈ l, ¬d = c := by
  induction l with
  | nil => simp
  | cons a rest ih =>
    simp only [charElem, Bool.or_eq_false_iff] at h
    intro d hd
    rcases List.mem_cons.mp hd with hd2 | hd2
    · subst hd2
      intro hdc
      rw [hdc] at h
      simp at h
    · exact ih h.2 d hd2

theorem rstrip_append_ws_single (xs : List Char) (c : Char) (hc : isPySpace c = true) :
    rstripChars (xs ++ [c]) = rstripChars xs := by
  unfold rstripChars
  rw [List.reverse_append]
  simp [List.dropWhile_cons, hc]

theorem foldl_collect (ls : List String) (st : ScanState) (s : Sect)
    (hcs : st.currentSection = some s)
    (hall : ∀ l ∈ ls, strStartsWith (pyStrip l) "#" = false) :
    ls.foldl stepLine st = { st with sectionContent := st.sectionContent ++ ls } := by
  induction ls generalizing st with
  | nil => simp
  | cons l rest ih =>
    rw [List.foldl_cons, stepLine_collect st s l hcs (hall l (by simp))]
    rw [ih _ (by simpa using hcs) (fun x hx => hall x (by simp [hx]))]
    simp

theorem outputtype_line_data (t : String) :
    ("expectedOutputType: " ++ t ++ " # or String, Boolean, etc.").data =
      ("expectedOutputType").data ++ ':' :: ' ' :: (t.data ++ (" # or String, Boolean, etc.").data) := by
  have h0 : ("expectedOutputType: " : String).data =
      ("expectedOutputType").data ++ [':', ' '] := by decide
  simp [String.data_append, h0]

theorem outputtype_line_data_head (t : String) :
    ("expectedOutputType: " ++ t ++ " # or String, Boolean, etc.").data =
      'e' :: (("xpectedOutputType").data ++ ':' :: ' ' :: (t.data ++ (" # or String, Boolean, etc.").data)) := by
  rw [outputtype_line_data]
  have h1 : ("expectedOutputType").data = 'e' :: ("xpectedOutputType").data := by decide
  rw [h1]
  simp

theorem strStartsWith_hash_cons (c : Char) (cs : List Char) (hc : ¬c = '#') :
    strStartsWith (String.mk (c :: cs)) "#" = false := by
  have : ("#" : String).data = ['#'] := by decide
  simp [strStartsWith, this, List.isPrefixOf]
  intro h
  exact absurd h.symm hc

theorem pyStrip_cons_head (line : String) (c : Char) (rest : List Char)
    (hdata : line.data = c :: rest) (hc : isPySpace c = false) :
    pyStrip line = String.mk (c :: rstripChars rest) := by
  rw [pyStrip, hdata, stripChars_cons_of_not_space c rest hc]

theorem mk_cons_ne_of_head (c : Char) (cs : List Char) (m : String) (cm : Char) (ms : List Char)
    (hm : m.data = cm :: ms) (hne : ¬c = cm) :
    ¬String.mk (c :: cs) = m := by
  intro h
  have := congrArg String.data h
  rw [hm] at this
  simp at this
  exact hne this.1

theorem string_data_mk (cs : List Char) : (String.mk cs).data = cs := rfl

theorem string_ne_empty_of_data (t : String) (h : ¬t = "") : t.data ≠ [] := by
  intro hd
  apply h
  have h2 : t = String.mk t.data := rfl
  rw [h2, hd]

theorem outputtype_value_strip (t : String) (ht1 : pyStrip t = t) (ht3 : pyContains t '#' = false) :
    pyStrip (beforeHash (pyStrip (String.mk (' ' :: (t.data ++ (" # or String, Boolean, etc.").data))))) = t := by
  by_cases ht0 : t = ""
  · subst ht0
    decide
  · have htne : t.data ≠ [] := string_ne_empty_of_data t ht0
    have hsd := pyStrip_self_data t ht1
    obtain ⟨hl, hr⟩ := stripChars_self_parts _ hsd
    have hstep1 : pyStrip (String.mk (' ' :: (t.data ++ (" # or String, Boolean, etc.").data))) =
        String.mk (t.data ++ (" # or String, Boolean, etc.").data) := by
      rw [pyStrip, string_data_mk]
      unfold stripChars
      have e1 : lstripChars (' ' :: (t.data ++ (" # or String, Boolean, etc.").data)) =
          t.data ++ (" # or String, Boolean, etc.").data := by
        unfold lstripChars
        rw [List.dropWhile_cons, if_pos (by decide)]
        exact lstrip_append_left _ _ hl htne
      rw [e1, rstrip_append_right _ _ (by decide) (by decide)]
    rw [hstep1]
    have hall : ∀ a ∈ t.data, (fun c => !(c = '#')) a = true := by
      intro a ha
      have := charElem_false_forall '#' t.data ht3 a ha
      simp [this]
    have hstep2 : beforeHash (String.mk (t.data ++ (" # or String, Boolean, etc.").data)) =
        String.mk (t.data ++ [' ']) := by
      rw [beforeHash, string_data_mk]
      rw [takeWhile_append_of_all _ _ _ hall]
      have : ((" # or String, Boolean, etc." : String).data).takeWhile (fun c => !(c = '#')) = [' '] := by
        decide
      rw [this]
    rw [hstep2, pyStrip, string_data_mk]
    unfold stripChars
    rw [lstrip_append_left _ _ hl htne, rstrip_append_ws_single _ _ (by decide), hr]

theorem stepLine_outputtype (st : ScanState) (t : String)
    (hcs : st.currentSection = none) (ht1 : pyStrip t = t) (ht3 : pyContains t '#' = false) :
    stepLine st ("expectedOutputType: " ++ t ++ " # or String, Boolean, etc.") =
      { st with testData := dictSet st.testData "expectedOutputType" (PyVal.str t) } := by
  obtain ⟨td, cj, cs0, sc⟩ := st
  simp only at hcs
  subst hcs
  have hdata := outputtype_line_data_head t
  have hls : pyStrip ("expectedOutputType: " ++ t ++ " # or String, Boolean, etc.") =
      String.mk ('e' :: rstripChars (("xpectedOutputType").data ++ ':' :: ' ' :: (t.data ++ (" # or String, Boolean, etc.").data))) :=
    pyStrip_cons_head _ _ _ hdata (by decide)
  have hsw : strStartsWith (pyStrip ("expectedOutputType: " ++ t ++ " # or String, Boolean, etc.")) "#" = false := by
    rw [hls]
    exact strStartsWith_hash_cons _ _ (by decide)
  obtain ⟨hm1, hm2, hm3, hm4⟩ := not_marker_of_no_hash _ hsw
  have hcolon : pyContains ("expectedOutputType: " ++ t ++ " # or String, Boolean, etc.") ':' = true := by
    rw [pyContains, outputtype_line_data, charElem_append]
    have h5 : charElem ':' (("expectedOutputType").data) = false := by decide
    rw [h5]
    simp [charElem]
  have hkv1 : (splitFirstColon ("expectedOutputType: " ++ t ++ " # or String, Boolean, etc.")).1 = "expectedOutputType" := by
    rw [splitFirstColon, outputtype_line_data]
    rw [takeWhile_append_of_all _ _ _ (by decide)]
    simp [List.takeWhile_cons]
  have hkv2 : (splitFirstColon ("expectedOutputType: " ++ t ++ " # or String, Boolean, etc.")).2 = String.mk (' ' :: (t.data ++ (" # or String, Boolean, etc.").data)) := by
    rw [splitFirstColon, outputtype_line_data]
    rw [dropWhile_append_of_all _ _ _ (by decide)]
    simp [List.dropWhile_cons]
  unfold stepLine
  rw [markerPhase_inert _ _ hm1 hm2 hm3 hm4]
  unfold collectPhase
  simp only
  unfold keyValuePhase
  simp only
  rw [if_pos ⟨hcolon, hsw⟩, hkv1, hkv2]
  rw [if_neg (by decide), if_pos (by decide)]
  have hkey : pyStrip "expectedOutputType" = "expectedOutputType" := by decide
  rw [hkey, outputtype_value_strip t ht1 ht3]

theorem name_line_data (nm : String) :
    ("name: " ++ nm).data = ("name").data ++ ':' :: ' ' :: nm.data := by
  have h0 : ("name: " : String).data = ("name").data ++ [':', ' '] := by decide
  simp [String.data_append, h0]

theorem name_line_data_head (nm : String) :
    ("name: " ++ nm).data = 'n' :: (("ame").data ++ ':' :: ' ' :: nm.data) := by
  rw [name_line_data]
  have h1 : ("name").data = 'n' :: ("ame").data := by decide
  rw [h1]
  simp

theorem stepLine_name (st : ScanState) (nm : String)
    (hcs : st.currentSection = none) (hnew : (st.testData.lookup "name").isNone = true) :
    stepLine st ("name: " ++ nm) =
      { st with testData := dictSet st.testData "name" (PyVal.str (pyStrip (String.mk (' ' :: nm.data)))) } := by
  obtain ⟨td, cj, cs0, sc⟩ := st
  simp only at hcs hnew
  subst hcs
  have hdata := name_line_data_head nm
  have hls : pyStrip ("name: " ++ nm) =
      String.mk ('n' :: rstripChars (("ame").data ++ ':' :: ' ' :: nm.data)) :=
    pyStrip_cons_head _ _ _ hdata (by decide)
  have hsw : strStartsWith (pyStrip ("name: " ++ nm)) "#" = false := by
    rw [hls]
    exact strStartsWith_hash_cons _ _ (by decide)
  obtain ⟨hm1, hm2, hm3, hm4⟩ := not_marker_of_no_hash _ hsw
  have hcolon : pyContains ("name: " ++ nm) ':' = true := by
    rw [pyContains, name_line_data, charElem_append]
    have h5 : charElem ':' (("name").data) = false := by decide
    rw [h5]
    simp [charElem]
  have hkv1 : (splitFirstColon ("name: " ++ nm)).1 = "name" := by
    rw [splitFirstColon, name_line_data]
    rw [takeWhile_append_of_all _ _ _ (by decide)]
    simp [List.takeWhile_cons]
  have hkv2 : (splitFirstColon ("name: " ++ nm)).2 = String.mk (' ' :: nm.data) := by
    rw [splitFirstColon, name_line_data]
    rw [dropWhile_append_of_all _ _ _ (by decide)]
    simp [List.dropWhile_cons]
  unfold stepLine
  rw [markerPhase_inert _ _ hm1 hm2 hm3 hm4]
  unfold collectPhase
  simp only
  unfold keyValuePhase
  simp only
  rw [if_pos ⟨hcolon, hsw⟩, hkv1, hkv2]
  have hkey : pyStrip "name" = "name" := by decide
  rw [hkey]
  rw [if_neg (by decide)]
  rw [if_neg (by decide)]
  rw [if_pos ⟨hnew, by decide, by decide, by decide⟩]

theorem stepLine_context (st : ScanState) (hcs : st.currentSection = none) :
    stepLine st "context: \x7b\x7d" = { st with contextJson := "\x7b\x7d" } := by
  obtain ⟨td, cj, cs0, sc⟩ := st
  simp only at hcs
  subst hcs
  unfold stepLine
  rw [markerPhase_inert _ _ (by decide) (by decide) (by decide) (by decide)]
  unfold collectPhase
  simp only
  unfold keyValuePhase
  simp only
  rw [if_pos ⟨by decide, by decide⟩]
  have hkey : pyStrip (splitFirstColon "context: \x7b\x7d").1 = "context" := by decide
  rw [hkey]
  rw [if_pos rfl]
  rw [if_neg (by decide)]
  rw [if_neg (fun h => h.2.1 rfl)]
  have hv : pyStrip (splitFirstColon "context: \x7b\x7d").2 = "\x7b\x7d" := by decide
  rw [hv]

theorem stepLine_start_input (st : ScanState) :
    stepLine st "# START_INPUT" =
      { st with currentSection := some Sect.input, sectionContent := [] } :=
  stepLine_start st Sect.input

theorem stepLine_start_expected (st : ScanState) :
    stepLine st "# START_EXPECTED_OUTPUT" =
      { st with currentSection := some Sect.expectedOutput, sectionContent := [] } :=
  stepLine_start st Sect.expectedOutput

theorem stepLine_end_input (st : ScanState) (s : Sect) (hcs : st.currentSection = some s) :
    stepLine st "# END_INPUT" =
      { st with
        testData := dictSet st.testData (sectKeyOf s) (PyVal.str (pyStrip (joinNL st.sectionContent))),
        currentSection := none } :=
  stepLine_end st s Sect.input hcs

theorem stepLine_end_expected (st : ScanState) (s : Sect) (hcs : st.currentSection = some s) :
    stepLine st "# END_EXPECTED_OUTPUT" =
      { st with
        testData := dictSet st.testData (sectKeyOf s) (PyVal.str (pyStrip (joinNL st.sectionContent))),
        currentSection := none } :=
  stepLine_end st s Sect.expectedOutput hcs

theorem foldl_templateTail (st : ScanState) (i o t : String)
    (hi : plainSectionText i) (ho : plainSectionText o) (ht : plainTypeText t) :
    (templateTailLines i o t).foldl stepLine st =
      { testData :=
          dictSet (dictSet (dictSet st.testData "input" (PyVal.str i))
            "expectedOutput" (PyVal.str o)) "expectedOutputType" (PyVal.str t),
        contextJson := "\x7b\x7d", currentSection := none,
        sectionContent := pySplitLines o } := by
  obtain ⟨hi2, hi1⟩ := hi
  obtain ⟨ho2, ho1⟩ := ho
  obtain ⟨ht1, ht2, ht3⟩ := ht
  obtain ⟨td, cj, cs0, sc⟩ := st
  unfold templateTailLines
  simp only [List.foldl_append, List.foldl_cons, List.foldl_nil]
  have e1 : stepLine { testData := td, contextJson := cj, currentSection := cs0, sectionContent := sc }
      "# START_INPUT" =
      { testData := td, contextJson := cj, currentSection := some Sect.input, sectionContent := [] } :=
    stepLine_start_input _
  rw [e1]
  have e2 : List.foldl stepLine
      { testData := td, contextJson := cj, currentSection := some Sect.input,
        sectionContent := ([] : List String) } (pySplitLines i) =
      { testData := td, contextJson := cj, currentSection := some Sect.input,
        sectionContent := pySplitLines i } := by
    rw [foldl_collect _ _ Sect.input rfl hi1]
    simp
  rw [e2]
  have e3 : stepLine
      { testData := td, contextJson := cj, currentSection := some Sect.input,
        sectionContent := pySplitLines i } "# END_INPUT" =
      { testData := dictSet td "input" (PyVal.str i), contextJson := cj, currentSection := none,
        sectionContent := pySplitLines i } := by
    rw [stepLine_end_input _ Sect.input rfl]
    simp only [joinNL_pySplitLines, hi2]
    rfl
  rw [e3]
  have e4 : stepLine
      { testData := dictSet td "input" (PyVal.str i), contextJson := cj, currentSection := none,
        sectionContent := pySplitLines i } "" =
      { testData := dictSet td "input" (PyVal.str i), contextJson := cj, currentSection := none,
        sectionContent := pySplitLines i } :=
    stepLine_none_inert _ "" rfl (by decide) (by decide) (by decide) (by decide) (Or.inl (by decide))
  rw [e4]
  have e5 : stepLine
      { testData := dictSet td "input" (PyVal.str i), contextJson := cj, currentSection := none,
        sectionContent := pySplitLines i }
      "# For expected output, write it between the START and END markers below" =
      { testData := dictSet td "input" (PyVal.str i), contextJson := cj, currentSection := none,
        sectionContent := pySplitLines i } :=
    stepLine_none_inert _ _ rfl (by decide) (by decide) (by decide) (by decide) (Or.inr (by decide))
  rw [e5]
  have e6 : stepLine
      { testData := dictSet td "input" (PyVal.str i), contextJson := cj, currentSection := none,
        sectionContent := pySplitLines i } "# START_EXPECTED_OUTPUT" =
      { testData := dictSet td "input" (PyVal.str i), contextJson := cj,
        currentSection := some Sect.expectedOutput, sectionContent := [] } :=
    stepLine_start_expected _
  rw [e6]
  have e7 : List.foldl stepLine
      { testData := dictSet td "input" (PyVal.str i), contextJson := cj,
        currentSection := some Sect.expectedOutput, sectionContent := ([] : List String) }
      (pySplitLines o) =
      { testData := dictSet td "input" (PyVal.str i), contextJson := cj,
        currentSection := some Sect.expectedOutput, sectionContent := pySplitLines o } := by
    rw [foldl_collect _ _ Sect.expectedOutput rfl ho1]
    simp
  rw [e7]
  have e8 : stepLine
      { testData := dictSet td "input" (PyVal.str i), contextJson := cj,
        currentSection := some Sect.expectedOutput, sectionContent := pySplitLines o }
      "# END_EXPECTED_OUTPUT" =
      { testData := dictSet (dictSet td "input" (PyVal.str i)) "expectedOutput" (PyVal.str o),
        contextJson := cj, currentSection := none, sectionContent := pySplitLines o } := by
    rw [stepLine_end_expected _ Sect.expectedOutput rfl]
    simp only [joinNL_pySplitLines, ho2]
    rfl
  rw [e8]
  have e9 : stepLine
      { testData := dictSet (dictSet td "input" (PyVal.str i)) "expectedOutput" (PyVal.str o),
        contextJson := cj, currentSection := none, sectionContent := pySplitLines o } "" =
      { testData := dictSet (dictSet td "input" (PyVal.str i)) "expectedOutput" (PyVal.str o),
        contextJson := cj, currentSection := none, sectionContent := pySplitLines o } :=
    stepLine_none_inert _ "" rfl (by decide) (by decide) (by decide) (by decide) (Or.inl (by decide))
  rw [e9]
  have e10 : stepLine
      { testData := dictSet (dictSet td "input" (PyVal.str i)) "expectedOutput" (PyVal.str o),
        contextJson := cj, currentSection := none, sectionContent := pySplitLines o }
      ("expectedOutputType: " ++ t ++ " # or String, Boolean, etc.") =
      { testData :=
          dictSet (dictSet (dictSet td "input" (PyVal.str i)) "expectedOutput" (PyVal.str o))
            "expectedOutputType" (PyVal.str t),
        contextJson := cj, currentSection := none, sectionContent := pySplitLines o } :=
    stepLine_outputtype _ t rfl ht1 ht3
  rw [e10]
  have e11 : stepLine
      { testData :=
          dictSet (dictSet (dictSet td "input" (PyVal.str i)) "expectedOutput" (PyVal.str o))
            "expectedOutputType" (PyVal.str t),
        contextJson := cj, currentSection := none, sectionContent := pySplitLines o } "" =
      { testData :=
          dictSet (dictSet (dictSet td "input" (PyVal.str i)) "expectedOutput" (PyVal.str o))
            "expectedOutputType" (PyVal.str t),
        contextJson := cj, currentSection := none, sectionContent := pySplitLines o } :=
    stepLine_none_inert _ "" rfl (by decide) (by decide) (by decide) (by decide) (Or.inl (by decide))
  rw [e11]
  have e12 : stepLine
      { testData :=
          dictSet (dictSet (dictSet td "input" (PyVal.str i)) "expectedOutput" (PyVal.str o))
            "expectedOutputType" (PyVal.str t),
        contextJson := cj, currentSection := none, sectionContent := pySplitLines o }
      "# Context (variables) section - use JSON format" =
      { testData :=
          dictSet (dictSet (dictSet td "input" (PyVal.str i)) "expectedOutput" (PyVal.str o))
            "expectedOutputType" (PyVal.str t),
        contextJson := cj, currentSection := none, sectionContent := pySplitLines o } :=
    stepLine_none_inert _ _ rfl (by decide) (by decide) (by decide) (by decide) (Or.inr (by decide))
  rw [e12]
  have e13 : stepLine
      { testData :=
          dictSet (dictSet (dictSet td "input" (PyVal.str i)) "expectedOutput" (PyVal.str o))
            "expectedOutputType" (PyVal.str t),
        contextJson := cj, currentSection := none, sectionContent := pySplitLines o }
      "context: \x7b\x7d" =
      { testData :=
          dictSet (dictSet (dictSet td "input" (PyVal.str i)) "expectedOutput" (PyVal.str o))
            "expectedOutputType" (PyVal.str t),
        contextJson := "\x7b\x7d", currentSection := none, sectionContent := pySplitLines o } :=
    stepLine_context _ rfl
  rw [e13]
  exact stepLine_none_inert _ "" rfl (by decide) (by decide) (by decide) (by decide) (Or.inl (by decide))

theorem pyContains_append (a b : String) (c : Char) :
    pyContains (a ++ b) c = (pyContains a c || pyContains b c) := by
  simp [pyContains, String.data_append, charElem_append]

theorem outputtype_line_no_newline (t : String) (ht2 : pyContains t '\n' = false) :
    pyContains ("expectedOutputType: " ++ t ++ " # or String, Boolean, etc.") '\n' = false := by
  rw [pyContains_append, pyContains_append, ht2]
  have h1 : pyContains "expectedOutputType: " '\n' = false := by decide
  have h2 : pyContains " # or String, Boolean, etc." '\n' = false := by decide
  rw [h1, h2]
  rfl

theorem templateLines_split (n i o ty : String) (hty2 : pyContains ty '\n' = false) :
    pySplitLines (joinNL
      ["# Edit the test details below. Lines starting with # will be ignored.",
       "# Save and close the editor when done.",
       "",
       "name: " ++ n,
       "",
       "# For input expression, write it between the START and END markers below",
       "# You can use multiple lines for complex TokenScript expressions",
       "# START_INPUT",
       i,
       "# END_INPUT",
       "",
       "# For expected output, write it between the START and END markers below",
       "# START_EXPECTED_OUTPUT",
       o,
       "# END_EXPECTED_OUTPUT",
       "",
       "expectedOutputType: " ++ ty ++ " # or String, Boolean, etc.",
       "",
       "# Context (variables) section - use JSON format",
       "context: \x7b\x7d",
       ""]) =
      ["# Edit the test details below. Lines starting with # will be ignored.",
       "# Save and close the editor when done.", ""] ++
      pySplitLines ("name: " ++ n) ++
      ["", "# For input expression, write it between the START and END markers below",
       "# You can use multiple lines for complex TokenScript expressions"] ++
      templateTailLines i o ty := by
  rw [pySplitLines_joinNL _ (by simp)]
  simp only [List.map_cons, List.map_nil, List.flatten_cons, List.flatten_nil]
  rw [pySplitLines_single _ (outputtype_line_no_newline ty hty2)]
  rw [pySplitLines_single "# Edit the test details below. Lines starting with # will be ignored." (by decide)]
  rw [pySplitLines_single "# Save and close the editor when done." (by decide)]
  rw [pySplitLines_single "" (by decide)]
  rw [pySplitLines_single "# For input expression, write it between the START and END markers below" (by decide)]
  rw [pySplitLines_single "# You can use multiple lines for complex TokenScript expressions" (by decide)]
  rw [pySplitLines_single "# START_INPUT" (by decide)]
  rw [pySplitLines_single "# END_INPUT" (by decide)]
  rw [pySplitLines_single "# For expected output, write it between the START and END markers below" (by decide)]
  rw [pySplitLines_single "# START_EXPECTED_OUTPUT" (by decide)]
  rw [pySplitLines_single "# END_EXPECTED_OUTPUT" (by decide)]
  rw [pySplitLines_single "# Context (variables) section - use JSON format" (by decide)]
  rw [pySplitLines_single "context: \x7b\x7d" (by decide)]
  unfold templateTailLines
  simp

theorem editTemplate_lines (n i o t : String) (ht2 : pyContains t '\n' = false) :
    pySplitLines (generate_editor_template (some
      { name := some n, input := some i, expectedOutput := some o,
        expectedOutputType := some t, exceptedOutputType := none,
        context := some (JsonValue.obj []) })) =
      ["# Edit the test details below. Lines starting with # will be ignored.",
       "# Save and close the editor when done.", ""] ++
      pySplitLines ("name: " ++ n) ++
      ["", "# For input expression, write it between the START and END markers below",
       "# You can use multiple lines for complex TokenScript expressions"] ++
      templateTailLines i o t := by
  exact templateLines_split n i o t ht2

theorem pyOrStr_empty_right (t : String) : pyOrStr t "" = t := by
  unfold pyOrStr
  by_cases h : t = "" <;> simp [h]

theorem editTemplate_lines_misspelled (n i o t : String) (ht2 : pyContains t '\n' = false) :
    pySplitLines (generate_editor_template (some
      { name := some n, input := some i, expectedOutput := some o,
        expectedOutputType := none, exceptedOutputType := some t,
        context := some (JsonValue.obj []) })) =
      ["# Edit the test details below. Lines starting with # will be ignored.",
       "# Save and close the editor when done.", ""] ++
      pySplitLines ("name: " ++ n) ++
      ["", "# For input expression, write it between the START and END markers below",
       "# You can use multiple lines for complex TokenScript expressions"] ++
      templateTailLines i o t := by
  have hgen : generate_editor_template (some
      { name := some n, input := some i, expectedOutput := some o,
        expectedOutputType := none, exceptedOutputType := some t,
        context := some (JsonValue.obj []) }) =
      joinNL
        ["# Edit the test details below. Lines starting with # will be ignored.",
         "# Save and close the editor when done.",
         "",
         "name: " ++ n,
         "",
         "# For input expression, write it between the START and END markers below",
         "# You can use multiple lines for complex TokenScript expressions",
         "# START_INPUT",
         i,
         "# END_INPUT",
         "",
         "# For expected output, write it between the START and END markers below",
         "# START_EXPECTED_OUTPUT",
         o,
         "# END_EXPECTED_OUTPUT",
         "",
         "expectedOutputType: " ++ pyOrStr t "" ++ " # or String, Boolean, etc.",
         "",
         "# Context (variables) section - use JSON format",
         "context: \x7b\x7d",
         ""] := rfl
  rw [hgen, pyOrStr_empty_right]
  exact templateLines_split n i o t ht2

theorem parse_by_scan (u : String) (v : JsonValue)
    (hload : pyJsonLoads ((scanLines u).contextJson) = some v) :
    parse_editor_content u =
      Except.ok (dictSet (scanLines u).testData "context" (PyVal.json v)) := by
  unfold parse_editor_content
  rw [hload]

theorem parse_fatal_of_bad_context (u : String)
    (hload : pyJsonLoads ((scanLines u).contextJson) = none) :
    parse_editor_content u =
      Except.error { code := 1, message := "Error parsing context JSON. Please check the format." } := by
  unfold parse_editor_content
  rw [hload]


/-! ### Lemmas: which record keys a scanner step can touch -/

theorem lookup_dictSet_sectKey {α : Type} (d : List (String × α)) (k : String) (s : Sect) (v : α)
    (hk1 : ¬k = "input") (hk2 : ¬k = "expectedOutput") :
    (dictSet d (sectKeyOf s) v).lookup k = d.lookup k := by
  cases s
  · exact lookup_dictSet_ne d "input" k v hk1
  · exact lookup_dictSet_ne d "expectedOutput" k v hk2

theorem markerPhase_lookup_preserved (st : ScanState) (ls k : String)
    (hk1 : ¬k = "input") (hk2 : ¬k = "expectedOutput") :
    ((markerPhase st ls).testData).lookup k = st.testData.lookup k := by
  obtain ⟨td, cj, cs0, sc⟩ := st
  unfold markerPhase closeSection
  rcases cs0 with _ | s
  · split_ifs <;> rfl
  · split_ifs <;>
      first
        | rfl
        | exact lookup_dictSet_sectKey td k s _ hk1 hk2

theorem markerPhase_testData_of_no_end (st : ScanState) (ls : String)
    (h1 : ¬ls = "# END_INPUT") (h2 : ¬ls = "# END_EXPECTED_OUTPUT") :
    (markerPhase st ls).testData = st.testData := by
  obtain ⟨td, cj, cs0, sc⟩ := st
  unfold markerPhase
  dsimp only
  by_cases hA : ls = "# START_INPUT"
  · rw [if_pos hA]
  · rw [if_neg hA, if_neg h1]
    by_cases hC : ls = "# START_EXPECTED_OUTPUT"
    · rw [if_pos hC]
    · rw [if_neg hC, if_neg h2]

theorem collectPhase_testData (st : ScanState) (line ls : String) :
    (collectPhase st line ls).testData = st.testData := by
  obtain ⟨td, cj, cs0, sc⟩ := st
  unfold collectPhase
  rcases cs0 with _ | s
  · rfl
  · dsimp only
    split_ifs <;> rfl

theorem collectPhase_contextJson (st : ScanState) (line ls : String) :
    (collectPhase st line ls).contextJson = st.contextJson := by
  obtain ⟨td, cj, cs0, sc⟩ := st
  unfold collectPhase
  rcases cs0 with _ | s
  · rfl
  · dsimp only
    split_ifs <;> rfl

theorem keyValuePhase_lookup_preserved (st : ScanState) (line ls k : String)
    (hk : ¬k = "expectedOutputType")
    (hsafe : (st.testData.lookup k).isSome = true ∨ (k = "input" ∨ k = "expectedOutput")) :
    ((keyValuePhase st line ls).testData).lookup k = st.testData.lookup k := by
  obtain ⟨td, cj, cs0, sc⟩ := st
  dsimp only at hsafe ⊢
  unfold keyValuePhase
  rcases cs0 with _ | s
  · dsimp only
    by_cases hout : pyContains line ':' = true ∧ strStartsWith ls "#" = false
    · rw [if_pos hout]
      rw [apply_ite ScanState.testData]
      dsimp only
      rw [ite_self]
      rw [apply_ite ScanState.testData]
      dsimp only
      rw [apply_ite (List.lookup k)]
      split_ifs with heot helif
      · rw [heot]
        exact lookup_dictSet_ne td "expectedOutputType" k _ hk
      · have hne : ¬k = pyStrip (splitFirstColon line).1 := by
          rcases hsafe with hsome | hks
          · intro hkk
            rw [← hkk] at helif
            rw [Option.isNone_iff_eq_none] at helif
            rw [helif.1] at hsome
            simp at hsome
          · rcases hks with hks | hks
            · intro hkk
              exact helif.2.2.1 (hkk.symm.trans hks)
            · intro hkk
              exact helif.2.2.2 (hkk.symm.trans hks)
        exact lookup_dictSet_ne td _ k _ hne
      · rfl
    · rw [if_neg hout]
  · rfl

theorem stepLine_lookup_preserved (st : ScanState) (line k : String)
    (h1 : ¬k = "expectedOutputType") (h2 : ¬k = "input") (h3 : ¬k = "expectedOutput")
    (hsome : (st.testData.lookup k).isSome = true) :
    ((stepLine st line).testData).lookup k = st.testData.lookup k := by
  unfold stepLine
  have hm := markerPhase_lookup_preserved st (pyStrip line) k h2 h3
  have hc := collectPhase_testData (markerPhase st (pyStrip line)) line (pyStrip line)
  have hs2 : (((collectPhase (markerPhase st (pyStrip line)) line (pyStrip line)).testData).lookup k).isSome = true := by
    rw [hc, hm]
    exact hsome
  rw [keyValuePhase_lookup_preserved _ _ _ k h1 (Or.inl hs2), hc, hm]

theorem foldl_lookup_first_wins (ls : List String) (st : ScanState) (k : String)
    (h1 : ¬k = "expectedOutputType") (h2 : ¬k = "input") (h3 : ¬k = "expectedOutput")
    (hsome : (st.testData.lookup k).isSome = true) :
    ((ls.foldl stepLine st).testData).lookup k = st.testData.lookup k := by
  induction ls generalizing st with
  | nil => rfl
  | cons l rest ih =>
    rw [List.foldl_cons]
    have hstep := stepLine_lookup_preserved st l k h1 h2 h3 hsome
    rw [ih (stepLine st l) (by rw [hstep]; exact hsome), hstep]

theorem stepLine_sect_lookup_preserved (st : ScanState) (line k : String)
    (hk : k = "input" ∨ k = "expectedOutput")
    (hl1 : ¬pyStrip line = "# END_INPUT") (hl2 : ¬pyStrip line = "# END_EXPECTED_OUTPUT") :
    ((stepLine st line).testData).lookup k = st.testData.lookup k := by
  unfold stepLine
  have hm := markerPhase_testData_of_no_end st (pyStrip line) hl1 hl2
  have hc := collectPhase_testData (markerPhase st (pyStrip line)) line (pyStrip line)
  have hkeot : ¬k = "expectedOutputType" := by
    rcases hk with h | h <;> (subst h; decide)
  rw [keyValuePhase_lookup_preserved _ _ _ k hkeot (Or.inr hk), hc, hm]

theorem foldl_sect_lookup_preserved (ls : List String) (st : ScanState) (k : String)
    (hk : k = "input" ∨ k = "expectedOutput")
    (hall : ∀ l ∈ ls, ¬pyStrip l = "# END_INPUT" ∧ ¬pyStrip l = "# END_EXPECTED_OUTPUT") :
    ((ls.foldl stepLine st).testData).lookup k = st.testData.lookup k := by
  induction ls generalizing st with
  | nil => rfl
  | cons l rest ih =>
    rw [List.foldl_cons]
    rw [ih (stepLine st l) (fun x hx => hall x (by simp [hx]))]
    exact stepLine_sect_lookup_preserved st l k hk (hall l (by simp)).1 (hall l (by simp)).2

/-! ### Lemmas: the misspelled-key fixup and the colon split -/

theorem lookup_filter_ne_none (d : List (String × PyVal)) (k : String) :
    (d.filter (fun p => !(p.1 = k))).lookup k = none := by
  induction d with
  | nil => rfl
  | cons a rest ih =>
    rcases a with ⟨a1, a2⟩
    by_cases hak : a1 = k
    · rw [List.filter_cons, if_neg (by simp [hak])]
      exact ih
    · rw [List.filter_cons, if_pos (by simp [hak])]
      have hbeq : (k == a1) = false := by
        simp
        intro h
        exact hak h.symm
      simp only [List.lookup, hbeq]
      exact ih

theorem fixMisspelled_renames (d : List (String × PyVal)) (v : PyVal)
    (hm : d.lookup "exceptedOutputType" = some v)
    (hc : d.lookup "expectedOutputType" = none) :
    (fixMisspelled d).lookup "expectedOutputType" = some v ∧
      (fixMisspelled d).lookup "exceptedOutputType" = none := by
  unfold fixMisspelled
  rw [hm, hc]
  rw [if_pos (by simp)]
  constructor
  · exact lookup_dictSet_self _ _ _
  · rw [lookup_dictSet_ne _ _ _ _ (by decide)]
    exact lookup_filter_ne_none d "exceptedOutputType"

theorem fixMisspelled_id_of_canonical (d : List (String × PyVal))
    (hc : (d.lookup "expectedOutputType").isSome = true) :
    fixMisspelled d = d := by
  unfold fixMisspelled
  rw [if_neg]
  rintro ⟨hm, hn⟩
  rw [Option.isNone_iff_eq_none] at hn
  rw [hn] at hc
  simp at hc

theorem fixMisspelled_id_of_no_misspelled (d : List (String × PyVal))
    (hm : d.lookup "exceptedOutputType" = none) :
    fixMisspelled d = d := by
  unfold fixMisspelled
  rw [if_neg]
  rintro ⟨hs, hn⟩
  rw [hm] at hs
  simp at hs

theorem charElem_takeWhile_colon (cs : List Char) :
    charElem ':' (cs.takeWhile (fun c => !(c = ':'))) = false := by
  induction cs with
  | nil => rfl
  | cons c rest ih =>
    by_cases hc : c = ':'
    · rw [List.takeWhile_cons, if_neg (by simp [hc])]
      rfl
    · rw [List.takeWhile_cons, if_pos (by simp [hc])]
      simp only [charElem, ih]
      simp
      intro hcc
      exact hc hcc.symm

theorem dropWhile_colon_head (cs : List Char) (h : charElem ':' cs = true) :
    cs.dropWhile (fun c => !(c = ':')) = ':' :: (cs.dropWhile (fun c => !(c = ':'))).tail := by
  induction cs with
  | nil => simp [charElem] at h
  | cons c rest ih =>
    by_cases hc : c = ':'
    · subst hc
      rw [List.dropWhile_cons, if_neg (by simp)]
      rfl
    · rw [List.dropWhile_cons, if_pos (by simp [hc])]
      apply ih
      simp only [charElem] at h
      rcases Bool.or_eq_true_iff.mp h with h1 | h1
      · have h2 : (':' : Char) = c := by simpa using h1
        exact absurd h2.symm hc
      · exact h1

theorem splitFirstColon_reconstruct (l : String) (h : pyContains l ':' = true) :
    (splitFirstColon l).1 ++ ":" ++ (splitFirstColon l).2 = l ∧
      pyContains (splitFirstColon l).1 ':' = false := by
  constructor
  · apply String.ext
    have hd := dropWhile_colon_head l.data h
    have hdata : ((splitFirstColon l).1 ++ ":" ++ (splitFirstColon l).2).data =
        (l.data.takeWhile (fun c => !(c = ':'))) ++ ':' :: (l.data.dropWhile (fun c => !(c = ':'))).tail := by
      simp [splitFirstColon, String.data_append, string_data_mk]
    rw [hdata, ← hd, List.takeWhile_append_dropWhile]
  · exact charElem_takeWhile_colon l.data

theorem foldl_templatePrefix (n : String) (hn : pyContains n '\n' = false) :
    List.foldl stepLine initScanState
      (["# Edit the test details below. Lines starting with # will be ignored.",
        "# Save and close the editor when done.", ""] ++
       pySplitLines ("name: " ++ n) ++
       ["", "# For input expression, write it between the START and END markers below",
        "# You can use multiple lines for complex TokenScript expressions"]) =
      { testData := [("name", PyVal.str (pyStrip (String.mk (' ' :: n.data))))],
        contextJson := "\x7b\x7d", currentSection := none, sectionContent := [] } := by
  have hnl : pyContains ("name: " ++ n) '\n' = false := by
    rw [pyContains_append]
    have h0 : pyContains "name: " '\n' = false := by decide
    rw [h0, hn]
    rfl
  rw [pySplitLines_single _ hnl]
  simp only [List.cons_append, List.nil_append, List.foldl_cons, List.foldl_nil]
  have e1 : stepLine initScanState
      "# Edit the test details below. Lines starting with # will be ignored." = initScanState :=
    stepLine_none_inert _ _ rfl (by decide) (by decide) (by decide) (by decide) (Or.inr (by decide))
  rw [e1]
  have e2 : stepLine initScanState "# Save and close the editor when done." = initScanState :=
    stepLine_none_inert _ _ rfl (by decide) (by decide) (by decide) (by decide) (Or.inr (by decide))
  rw [e2]
  have e3 : stepLine initScanState "" = initScanState :=
    stepLine_none_inert _ _ rfl (by decide) (by decide) (by decide) (by decide) (Or.inl (by decide))
  rw [e3]
  have e4 : stepLine initScanState ("name: " ++ n) =
      { testData := [("name", PyVal.str (pyStrip (String.mk (' ' :: n.data))))],
        contextJson := "\x7b\x7d", currentSection := none, sectionContent := [] } := by
    rw [stepLine_name initScanState n rfl (by decide)]
    rfl
  rw [e4]
  have e5 : stepLine
      { testData := [("name", PyVal.str (pyStrip (String.mk (' ' :: n.data))))],
        contextJson := "\x7b\x7d", currentSection := none, sectionContent := ([] : List String) } "" =
      { testData := [("name", PyVal.str (pyStrip (String.mk (' ' :: n.data))))],
        contextJson := "\x7b\x7d", currentSection := none, sectionContent := [] } :=
    stepLine_none_inert _ _ rfl (by decide) (by decide) (by decide) (by decide) (Or.inl (by decide))
  rw [e5]
  have e6 : stepLine
      { testData := [("name", PyVal.str (pyStrip (String.mk (' ' :: n.data))))],
        contextJson := "\x7b\x7d", currentSection := none, sectionContent := ([] : List String) }
      "# For input expression, write it between the START and END markers below" =
      { testData := [("name", PyVal.str (pyStrip (String.mk (' ' :: n.data))))],
        contextJson := "\x7b\x7d", currentSection := none, sectionContent := [] } :=
    stepLine_none_inert _ _ rfl (by decide) (by decide) (by decide) (by decide) (Or.inr (by decide))
  rw [e6]
  exact stepLine_none_inert _ _ rfl (by decide) (by decide) (by decide) (by decide) (Or.inr (by decide))

/-! ### Claim C2 -/

/-- C2, corrected.  In the scanner's marker loop the end-marker comparison of
each section closes whichever section is currently active, so a stray
`# END_INPUT` encountered inside the expected-output section does terminate
that section: the buffered lines are joined with newlines, stripped, stored
under `expectedOutput`, and the state returns to no-section.  (The claim's
statement — that the line is skipped as a comment and scanning continues —
is refuted by `claim_c2_counterexample`.) -/
theorem claim_c2_stray_end_marker (st : ScanState)
    (hcs : st.currentSection = some Sect.expectedOutput) :
    stepLine st "# END_INPUT" =
      { st with
        testData := dictSet st.testData "expectedOutput" (PyVal.str (pyStrip (joinNL st.sectionContent))),
        currentSection := none } :=
  stepLine_end_input st Sect.expectedOutput hcs

/-- Witness for C2: closing a buffered `foo` with the stray `# END_INPUT`
stores `foo` under `expectedOutput`. -/
theorem claim_c2_witness :
    stepLine
      { testData := [], contextJson := "\x7b\x7d", currentSection := some Sect.expectedOutput,
        sectionContent := ["foo"] } "# END_INPUT" =
      { testData := [("expectedOutput", PyVal.str "foo")], contextJson := "\x7b\x7d",
        currentSection := none, sectionContent := ["foo"] } := by
  rw [claim_c2_stray_end_marker _ rfl]
  rfl

/-- Counterexample to C2 as stated: in the text below the claim predicts the
expected-output section continues past the stray `# END_INPUT` (yielding
`foo\nbar`), but the scanner stores only `foo`. -/
theorem claim_c2_counterexample :
    parse_editor_content "# START_EXPECTED_OUTPUT\nfoo\n# END_INPUT\nbar\n# END_EXPECTED_OUTPUT" =
      Except.ok [("expectedOutput", PyVal.str "foo"), ("context", PyVal.json (JsonValue.obj []))] ∧
    ¬("foo" : String) = "foo\nbar" :=
  ⟨rfl, by decide⟩

/-! ### Claim C4 -/

/-- C4, corrected.  Outside the sections, a key that already has a stored
value is never overwritten by a later line — first occurrence wins — for
every key other than `expectedOutputType` (whose branch assigns
unconditionally, so its last occurrence wins) and other than the
section-reserved keys `input`/`expectedOutput` (which colon lines can never
set, and end-marker lines always overwrite).  The two concrete conjuncts
show `name: A` then `name: B` storing `A`, and the `expectedOutputType`
exception storing `B`. -/
theorem claim_c4_first_occurrence_wins :
    (∀ (st : ScanState) (line k : String),
      ¬k = "expectedOutputType" → ¬k = "input" → ¬k = "expectedOutput" →
      (st.testData.lookup k).isSome = true →
      ((stepLine st line).testData).lookup k = st.testData.lookup k) ∧
    parsedField "name: A\nname: B" "name" = some (PyVal.str "A") ∧
    parsedField "expectedOutputType: A\nexpectedOutputType: B" "expectedOutputType" =
      some (PyVal.str "B") :=
  ⟨fun st line k h1 h2 h3 hsome => stepLine_lookup_preserved st line k h1 h2 h3 hsome, rfl, rfl⟩

/-- Witness for C4: a stored `name` survives a later `name: B` line. -/
theorem claim_c4_witness :
    ((stepLine
        { testData := [("name", PyVal.str "A")], contextJson := "\x7b\x7d",
          currentSection := none, sectionContent := [] } "name: B").testData).lookup "name" =
      ([("name", PyVal.str "A")] : List (String × PyVal)).lookup "name" :=
  claim_c4_first_occurrence_wins.1
    { testData := [("name", PyVal.str "A")], contextJson := "\x7b\x7d",
      currentSection := none, sectionContent := [] }
    "name: B" "name" (by decide) (by decide) (by decide) (by rfl)

/-- Counterexample to C4 as stated: for the key `expectedOutputType` the
second declaration wins, not the first. -/
theorem claim_c4_counterexample :
    parsedField "expectedOutputType: A\nexpectedOutputType: B" "expectedOutputType" =
      some (PyVal.str "B") ∧
    ¬PyVal.str "B" = PyVal.str "A" :=
  ⟨rfl, by simp⟩

/-! ### Claim C5 -/

/-- C5, confirmed.  Whenever the captured context source text (the scanner's
pending `contextJson`, i.e. the value of the last `context:` line or `"{}"`
when none occurred) fails to decode as JSON, the invocation terminates with
exit status 1 after printing the context diagnostic, and the outcome is not
a file write. -/
theorem claim_c5_invalid_context_aborts (env : SaveEnv) (u : String)
    (hbad : pyJsonLoads ((scanLines u).contextJson) = none) :
    create_or_edit_save env u =
      (SaveOutcome.exited 1 "Error parsing context JSON. Please check the format.", false) := by
  by_cases hu : u = ""
  · subst hu
    have hok : pyJsonLoads ((scanLines "").contextJson) = some (JsonValue.obj []) := rfl
    rw [hok] at hbad
    simp at hbad
  · unfold create_or_edit_save
    rw [if_neg hu, parse_fatal_of_bad_context u hbad]

/-- Witness for C5: `context: {not valid json}` aborts with status 1. -/
theorem claim_c5_witness :
    create_or_edit_save
      { editMode := false, testPath := none, category := "math", filenameArg := none,
        targetExists := false, overwriteAnswer := "" }
      "context: \x7bnot valid json\x7d" =
      (SaveOutcome.exited 1 "Error parsing context JSON. Please check the format.", false) :=
  claim_c5_invalid_context_aborts _ _ rfl

/-! ### Claim C6 -/

/-- C6, corrected.  The launcher deletes its temporary file exactly on the
two paths that execute an `os.unlink`: editor success with a readable file
(line 32) and the caught non-zero editor exit (line 26).  When the editor
program is missing, `subprocess.check_call` raises `FileNotFoundError`,
which the `except CalledProcessError` clause does not catch, and when the
edited file is unreadable the re-open raises before line 32 — on both of
those paths the function is abandoned with the temporary file still on
disk, refuting the claim's "every exit path" (see
`claim_c6_counterexample`). -/
theorem claim_c6_temp_file_cleanup (env : EditorEnv) :
    tempFileDeleted (get_user_input_with_editor env) = true ↔
      (env.outcome = EditorOutcome.nonZeroExit ∨
        (env.outcome = EditorOutcome.success ∧ env.readBack.isSome = true)) := by
  obtain ⟨oc, rb⟩ := env
  cases oc <;> cases rb <;> simp [get_user_input_with_editor, tempFileDeleted]

/-- Counterexample to C6 as stated: with the editor program missing the
launcher propagates `FileNotFoundError` and the temporary file survives. -/
theorem claim_c6_counterexample :
    tempFileDeleted (get_user_input_with_editor
      { outcome := EditorOutcome.progMissing, readBack := some "text" }) = false :=
  rfl

/-! ### Claim C7 -/

/-- C7, corrected.  The overwrite confirmation exists only on the create
branch: there, an existing target prompts, any answer not starting with
`y`/`Y` (the empty default included) cancels with exit status 0 and no
write.  In edit mode the target path is taken as-is and the record is
written with no existence check and no prompt (refuted as stated by
`claim_c7_counterexample`). -/
theorem claim_c7_overwrite_confirmation :
    (∀ (env : SaveEnv) (u : String) (r : List (String × PyVal)),
      env.editMode = true → env.testPath.isSome = true → ¬u = "" →
      parse_editor_content u = Except.ok r →
      create_or_edit_save env u =
        (SaveOutcome.wrote (env.testPath.getD "") (fixMisspelled r), false)) ∧
    (∀ (env : SaveEnv) (u : String) (r : List (String × PyVal)),
      ¬(env.editMode = true ∧ env.testPath.isSome) → ¬u = "" →
      parse_editor_content u = Except.ok r → env.targetExists = true →
      (create_or_edit_save env u).2 = true ∧
        (strStartsWith (pyLower env.overwriteAnswer) "y" = false →
          create_or_edit_save env u = (SaveOutcome.exited 0 "Operation cancelled.", true))) := by
  constructor
  · intro env u r hmode hpath hu hr
    unfold create_or_edit_save
    rw [if_neg hu, hr]
    dsimp only
    rw [if_pos ⟨hmode, hpath⟩]
  · intro env u r hmode hu hr htarget
    unfold create_or_edit_save
    rw [if_neg hu, hr]
    dsimp only
    rw [if_neg hmode, if_pos htarget]
    constructor
    · rcases hy : strStartsWith (pyLower env.overwriteAnswer) "y" with _ | _ <;> simp [hy]
    · intro hn
      rw [if_neg (by simp [hn])]

/-- Witness for C7: an edit-mode save over an existing file writes without
prompting, and a declined create-mode prompt cancels with status 0. -/
theorem claim_c7_witness :
    create_or_edit_save
      { editMode := true, testPath := some "tests/math/t.json", category := "math",
        filenameArg := none, targetExists := true, overwriteAnswer := "" } "name: A" =
      (SaveOutcome.wrote "tests/math/t.json"
        [("name", PyVal.str "A"), ("context", PyVal.json (JsonValue.obj []))], false) ∧
    create_or_edit_save
      { editMode := false, testPath := none, category := "math",
        filenameArg := none, targetExists := true, overwriteAnswer := "n" } "name: My Test" =
      (SaveOutcome.exited 0 "Operation cancelled.", true) := by
  constructor
  · exact claim_c7_overwrite_confirmation.1 _ "name: A"
      [("name", PyVal.str "A"), ("context", PyVal.json (JsonValue.obj []))]
      rfl rfl (by decide) rfl
  · exact (claim_c7_overwrite_confirmation.2 _ "name: My Test"
      [("name", PyVal.str "My Test"), ("context", PyVal.json (JsonValue.obj []))]
      (by simp) (by decide) rfl rfl).2 (by decide)

/-- Counterexample to C7 as stated: the target exists in edit mode, yet the
record is written with the prompt flag false. -/
theorem claim_c7_counterexample :
    create_or_edit_save
      { editMode := true, testPath := some "tests/math/t.json", category := "math",
        filenameArg := none, targetExists := true, overwriteAnswer := "" } "name: B" =
      (SaveOutcome.wrote "tests/math/t.json"
        [("name", PyVal.str "B"), ("context", PyVal.json (JsonValue.obj []))], false) :=
  rfl

/-! ### Claim C8 -/

/-- C8, confirmed.  For the template generated around the two-line input
`foo\nbar`, the parsed `input` is exactly `"foo\nbar"`; in general an
end-marker line seen with a section active joins the buffered lines with
newlines, strips the join, and stores it under the active section's key,
returning to no-section; and each of the four marker lines is never
buffered as content (a start marker resets the buffer, an end marker leaves
it unchanged). -/
theorem claim_c8_marker_boundary :
    parsedField (generate_editor_template (some
      { name := some "Marker test", input := some "foo\nbar", expectedOutput := some "7",
        expectedOutputType := some "Number", exceptedOutputType := none,
        context := some (JsonValue.obj []) })) "input" = some (PyVal.str "foo\nbar") ∧
    (∀ (st : ScanState) (s s2 : Sect), st.currentSection = some s →
      stepLine st (endMarkerOf s2) =
        { st with
          testData := dictSet st.testData (sectKeyOf s) (PyVal.str (pyStrip (joinNL st.sectionContent))),
          currentSection := none }) ∧
    (∀ st : ScanState,
      (stepLine st "# START_INPUT").sectionContent = [] ∧
      (stepLine st "# END_INPUT").sectionContent = st.sectionContent ∧
      (stepLine st "# START_EXPECTED_OUTPUT").sectionContent = [] ∧
      (stepLine st "# END_EXPECTED_OUTPUT").sectionContent = st.sectionContent) := by
  refine ⟨rfl, fun st s s2 hcs => stepLine_end st s s2 hcs, fun st => ?_⟩
  refine ⟨by rw [stepLine_start_input], ?_, by rw [stepLine_start_expected], ?_⟩
  · rcases hcs : st.currentSection with _ | s
    · exact congrArg ScanState.sectionContent (stepLine_end_none st Sect.input hcs)
    · have h2 := congrArg ScanState.sectionContent (stepLine_end_input st s hcs)
      exact h2
  · rcases hcs : st.currentSection with _ | s
    · exact congrArg ScanState.sectionContent (stepLine_end_none st Sect.expectedOutput hcs)
    · have h2 := congrArg ScanState.sectionContent (stepLine_end_expected st s hcs)
      exact h2

/-- Witness for C8: closing an input section holding `foo` and `bar` stores
`foo\nbar`, and a start marker empties the buffer. -/
theorem claim_c8_witness :
    stepLine
      { testData := [], contextJson := "\x7b\x7d", currentSection := some Sect.input,
        sectionContent := ["foo", "bar"] } "# END_INPUT" =
      { testData := [("input", PyVal.str "foo\nbar")], contextJson := "\x7b\x7d",
        currentSection := none, sectionContent := ["foo", "bar"] } ∧
    (stepLine initScanState "# START_INPUT").sectionContent = [] := by
  constructor
  · exact (claim_c8_marker_boundary.2.1
      { testData := [], contextJson := "\x7b\x7d", currentSection := some Sect.input,
        sectionContent := ["foo", "bar"] } Sect.input Sect.input rfl).trans (by rfl)
  · exact (claim_c8_marker_boundary.2.2 initScanState).1

/-! ### Claim C9 -/

/-- C9, confirmed.  The scanner is total: every editor text either parses to
a record or takes the single fatal exit (status 1, with the context
diagnostic) precisely when the pending context source fails to decode;
every line containing a colon splits at its first colon into a key part
(colon-free) and a value part that reassemble to the original line; and an
end-marker line seen with no active section changes nothing. -/
theorem claim_c9_scanner_totality :
    (∀ u : String,
      (∃ r, parse_editor_content u = Except.ok r) ∨
        (parse_editor_content u =
            Except.error { code := 1, message := "Error parsing context JSON. Please check the format." } ∧
          pyJsonLoads ((scanLines u).contextJson) = none)) ∧
    (∀ l : String, pyContains l ':' = true →
      (splitFirstColon l).1 ++ ":" ++ (splitFirstColon l).2 = l ∧
        pyContains (splitFirstColon l).1 ':' = false) ∧
    (∀ st : ScanState, st.currentSection = none →
      stepLine st "# END_INPUT" = st ∧ stepLine st "# END_EXPECTED_OUTPUT" = st) := by
  refine ⟨fun u => ?_, fun l hl => splitFirstColon_reconstruct l hl, fun st hcs =>
    ⟨stepLine_end_none st Sect.input hcs, stepLine_end_none st Sect.expectedOutput hcs⟩⟩
  rcases h : pyJsonLoads ((scanLines u).contextJson) with _ | v
  · exact Or.inr ⟨parse_fatal_of_bad_context u h, rfl⟩
  · exact Or.inl ⟨_, parse_by_scan u v h⟩

/-- Witness for C9 at concrete inputs. -/
theorem claim_c9_witness :
    ((∃ r, parse_editor_content "name: A" = Except.ok r) ∨
      (parse_editor_content "name: A" =
          Except.error { code := 1, message := "Error parsing context JSON. Please check the format." } ∧
        pyJsonLoads ((scanLines "name: A").contextJson) = none)) ∧
    ((splitFirstColon "key: a:b").1 ++ ":" ++ (splitFirstColon "key: a:b").2 = "key: a:b" ∧
      pyContains (splitFirstColon "key: a:b").1 ':' = false) ∧
    (stepLine initScanState "# END_INPUT" = initScanState ∧
      stepLine initScanState "# END_EXPECTED_OUTPUT" = initScanState) :=
  ⟨claim_c9_scanner_totality.1 "name: A",
   claim_c9_scanner_totality.2.1 "key: a:b" (by decide),
   claim_c9_scanner_totality.2.2 initScanState rfl⟩

/-! ### Claim C10 -/

/-- C10, corrected.  Section text reaches the record only through end-marker
lines: over any run of lines containing no end marker the record's entries
for `input` and `expectedOutput` are untouched (so an unterminated section's
buffer is silently dropped), and a start-marker line resets the buffer,
discarding content collected since the previous start marker.  The claim's
stronger reading — that the record then holds no entry at all for the
section's key — fails when an earlier, properly terminated section already
stored one (see `claim_c10_counterexample`). -/
theorem claim_c10_unterminated_sections :
    (∀ (ls : List String) (st : ScanState) (k : String),
      (k = "input" ∨ k = "expectedOutput") →
      (∀ l ∈ ls, ¬pyStrip l = "# END_INPUT" ∧ ¬pyStrip l = "# END_EXPECTED_OUTPUT") →
      ((ls.foldl stepLine st).testData).lookup k = st.testData.lookup k) ∧
    (∀ (st : ScanState) (s : Sect), (stepLine st (startMarkerOf s)).sectionContent = []) := by
  refine ⟨fun ls st k hk hall => foldl_sect_lookup_preserved ls st k hk hall, fun st s => ?_⟩
  rw [stepLine_start]

/-- Witness for C10: a lone unterminated section leaves no `input` entry. -/
theorem claim_c10_witness :
    ((["# START_INPUT", "a"].foldl stepLine initScanState).testData).lookup "input" =
      (initScanState.testData).lookup "input" ∧
    (stepLine initScanState (startMarkerOf Sect.input)).sectionContent = [] :=
  ⟨claim_c10_unterminated_sections.1 ["# START_INPUT", "a"] initScanState "input"
      (Or.inl rfl) (by decide),
   claim_c10_unterminated_sections.2 initScanState Sect.input⟩

/-- Counterexample to C10 as stated: the second `# START_INPUT` is never
terminated, yet the record still has an `input` entry (stored by the
earlier, terminated section). -/
theorem claim_c10_counterexample :
    parsedField "# START_INPUT\na\n# END_INPUT\n# START_INPUT\nb" "input" = some (PyVal.str "a") ∧
    ¬parsedField "# START_INPUT\na\n# END_INPUT\n# START_INPUT\nb" "input" = none := by
  constructor
  · rfl
  · intro h
    have h2 : parsedField "# START_INPUT\na\n# END_INPUT\n# START_INPUT\nb" "input" =
        some (PyVal.str "a") := rfl
    rw [h2] at h
    exact Option.noConfusion h

/-! ### Claim C1 -/

/-- C1, amended and proved.  Generating the editor template from a record
and feeding it back unmodified reproduces `input`, `expectedOutput` and
`expectedOutputType` exactly and decodes `context` back to the original
mapping, for records whose context is the empty mapping and whose field
values survive the template: `input` and `expectedOutput` equal to their
own strip with no line that strips to a `#`-comment, and a stripped,
single-line, `#`-free `expectedOutputType`.  (Outside these bounds the
claim fails — see `claim_c1_counterexample`: a non-empty context is
pretty-printed over several lines, of which only the first reaches the
context capture, so re-parsing aborts on invalid JSON; padded or
comment-containing field values come back altered.)  The `name` field is
unconstrained: the four claimed fields round-trip for every name. -/
theorem claim_c1_template_roundtrip (n i o t : String)
    (hi : plainSectionText i) (ho : plainSectionText o) (ht : plainTypeText t) :
    ∃ td, parse_editor_content (generate_editor_template (some
        { name := some n, input := some i, expectedOutput := some o,
          expectedOutputType := some t, exceptedOutputType := none,
          context := some (JsonValue.obj []) })) = Except.ok td ∧
      td.lookup "input" = some (PyVal.str i) ∧
      td.lookup "expectedOutput" = some (PyVal.str o) ∧
      td.lookup "expectedOutputType" = some (PyVal.str t) ∧
      td.lookup "context" = some (PyVal.json (JsonValue.obj [])) := by
  obtain ⟨ht1, ht2, ht3⟩ := ht
  have hscan : scanLines (generate_editor_template (some
      { name := some n, input := some i, expectedOutput := some o,
        expectedOutputType := some t, exceptedOutputType := none,
        context := some (JsonValue.obj []) })) =
      { testData :=
          dictSet (dictSet (dictSet
            (List.foldl stepLine
              (List.foldl stepLine
                (List.foldl stepLine initScanState
                  ["# Edit the test details below. Lines starting with # will be ignored.",
                   "# Save and close the editor when done.", ""])
                (pySplitLines ("name: " ++ n)))
              ["", "# For input expression, write it between the START and END markers below",
               "# You can use multiple lines for complex TokenScript expressions"]).testData
            "input" (PyVal.str i)) "expectedOutput" (PyVal.str o)) "expectedOutputType" (PyVal.str t),
        contextJson := "\x7b\x7d", currentSection := none, sectionContent := pySplitLines o } := by
    unfold scanLines
    rw [editTemplate_lines n i o t ht2, List.foldl_append, List.foldl_append, List.foldl_append,
      foldl_templateTail _ i o t hi ho ⟨ht1, ht2, ht3⟩]
  rw [parse_by_scan _ (JsonValue.obj []) (by rw [hscan]; rfl)]
  refine ⟨_, rfl, ?_, ?_, ?_, ?_⟩
  · rw [lookup_dictSet_ne _ _ _ _ (by decide), hscan]
    rw [lookup_dictSet_ne _ _ _ _ (by decide), lookup_dictSet_ne _ _ _ _ (by decide),
      lookup_dictSet_self]
  · rw [lookup_dictSet_ne _ _ _ _ (by decide), hscan]
    rw [lookup_dictSet_ne _ _ _ _ (by decide), lookup_dictSet_self]
  · rw [lookup_dictSet_ne _ _ _ _ (by decide), hscan]
    rw [lookup_dictSet_self]
  · rw [lookup_dictSet_self]

/-- Witness for C1 on a concrete record. -/
theorem claim_c1_witness :
    ∃ td, parse_editor_content (generate_editor_template (some
        { name := some "Addition of two numbers", input := some "3 + 4",
          expectedOutput := some "7", expectedOutputType := some "Number",
          exceptedOutputType := none, context := some (JsonValue.obj []) })) = Except.ok td ∧
      td.lookup "input" = some (PyVal.str "3 + 4") ∧
      td.lookup "expectedOutput" = some (PyVal.str "7") ∧
      td.lookup "expectedOutputType" = some (PyVal.str "Number") ∧
      td.lookup "context" = some (PyVal.json (JsonValue.obj [])) :=
  claim_c1_template_roundtrip "Addition of two numbers" "3 + 4" "7" "Number"
    (by constructor <;> decide) (by constructor <;> decide)
    (by refine ⟨?_, ?_, ?_⟩ <;> decide)

/-- Counterexample to C1 as stated: with a non-empty context mapping the
template pretty-prints the context over three lines and re-parsing aborts
on invalid context JSON instead of reproducing the record; a padded input
comes back stripped; an input containing a comment-like line loses it; and
an output type containing `#` is truncated. -/
theorem claim_c1_counterexample :
    parse_editor_content (generate_editor_template (some
      { name := some "N", input := some "3 + 4", expectedOutput := some "7",
        expectedOutputType := some "Number", exceptedOutputType := none,
        context := some (JsonValue.obj [("x", JsonValue.numRaw "3")]) })) =
      Except.error { code := 1, message := "Error parsing context JSON. Please check the format." } ∧
    (parsedField (generate_editor_template (some
      { name := some "N", input := some "  3 + 4", expectedOutput := some "7",
        expectedOutputType := some "Number", exceptedOutputType := none,
        context := some (JsonValue.obj []) })) "input" = some (PyVal.str "3 + 4") ∧
      ¬("3 + 4" : String) = "  3 + 4") ∧
    (parsedField (generate_editor_template (some
      { name := some "N", input := some "a\n# b\nc", expectedOutput := some "7",
        expectedOutputType := some "Number", exceptedOutputType := none,
        context := some (JsonValue.obj []) })) "input" = some (PyVal.str "a\nc") ∧
      ¬("a\nc" : String) = "a\n# b\nc") ∧
    (parsedField (generate_editor_template (some
      { name := some "N", input := some "3 + 4", expectedOutput := some "7",
        expectedOutputType := some "Num#ber", exceptedOutputType := none,
        context := some (JsonValue.obj []) })) "expectedOutputType" = some (PyVal.str "Num") ∧
      ¬("Num" : String) = "Num#ber") :=
  ⟨rfl, ⟨rfl, by decide⟩, ⟨rfl, by decide⟩, ⟨rfl, by decide⟩⟩

/-! ### Claim C3 -/

/-- C3, corrected.  Before a record is written, a misspelled
`exceptedOutputType` key is renamed to the canonical `expectedOutputType` —
but only when the canonical key is absent: when both keys are present the
fix-up does nothing, so the canonical key keeps its value and the
misspelled key is also persisted rather than dropped (the claim's
both-present clause is refuted by `claim_c3_counterexample`).  The claim's
edit-mode clause holds: a loaded record carrying only the misspelled key,
re-saved through an unmodified editor pass, is written with only the
canonical key bound to the same value. -/
theorem claim_c3_misspelling_normalization :
    (∀ (d : List (String × PyVal)) (v : PyVal),
      d.lookup "exceptedOutputType" = some v → d.lookup "expectedOutputType" = none →
      (fixMisspelled d).lookup "expectedOutputType" = some v ∧
        (fixMisspelled d).lookup "exceptedOutputType" = none) ∧
    (∀ d : List (String × PyVal), (d.lookup "expectedOutputType").isSome = true →
      fixMisspelled d = d) ∧
    (∀ (p n i o t : String) (env : SaveEnv),
      env.editMode = true → env.testPath = some p → pyContains n '\n' = false →
      plainSectionText i → plainSectionText o → plainTypeText t →
      ∃ rec, create_or_edit_save env (generate_editor_template (some
          { name := some n, input := some i, expectedOutput := some o,
            expectedOutputType := none, exceptedOutputType := some t,
            context := some (JsonValue.obj []) })) = (SaveOutcome.wrote p rec, false) ∧
        rec.lookup "expectedOutputType" = some (PyVal.str t) ∧
        rec.lookup "exceptedOutputType" = none) := by
  refine ⟨fun d v hm hc => fixMisspelled_renames d v hm hc,
    fun d hc => fixMisspelled_id_of_canonical d hc, ?_⟩
  intro p n i o t env hmode hpath hn hi ho ht
  obtain ⟨ht1, ht2, ht3⟩ := ht
  have hne : ¬generate_editor_template (some
      { name := some n, input := some i, expectedOutput := some o,
        expectedOutputType := none, exceptedOutputType := some t,
        context := some (JsonValue.obj []) }) = "" := by
    intro h
    have h2 := congrArg pySplitLines h
    rw [editTemplate_lines_misspelled n i o t ht2] at h2
    have h3 : pySplitLines "" = [""] := rfl
    rw [h3] at h2
    have h4 := congrArg List.length h2
    simp only [templateTailLines, List.length_append, List.length_cons, List.length_nil] at h4
    omega
  have hscan : scanLines (generate_editor_template (some
      { name := some n, input := some i, expectedOutput := some o,
        expectedOutputType := none, exceptedOutputType := some t,
        context := some (JsonValue.obj []) })) =
      { testData :=
          dictSet (dictSet (dictSet
            [("name", PyVal.str (pyStrip (String.mk (' ' :: n.data))))]
            "input" (PyVal.str i)) "expectedOutput" (PyVal.str o)) "expectedOutputType" (PyVal.str t),
        contextJson := "\x7b\x7d", currentSection := none, sectionContent := pySplitLines o } := by
    unfold scanLines
    rw [editTemplate_lines_misspelled n i o t ht2, List.foldl_append, List.foldl_append,
      List.foldl_append]
    have hpre := foldl_templatePrefix n hn
    rw [List.foldl_append, List.foldl_append] at hpre
    rw [hpre, foldl_templateTail _ i o t hi ho ⟨ht1, ht2, ht3⟩]
  have hparse := parse_by_scan (generate_editor_template (some
      { name := some n, input := some i, expectedOutput := some o,
        expectedOutputType := none, exceptedOutputType := some t,
        context := some (JsonValue.obj []) })) (JsonValue.obj []) (by rw [hscan]; rfl)
  have hnomiss : (dictSet (scanLines (generate_editor_template (some
      { name := some n, input := some i, expectedOutput := some o,
        expectedOutputType := none, exceptedOutputType := some t,
        context := some (JsonValue.obj []) }))).testData "context"
        (PyVal.json (JsonValue.obj []))).lookup "exceptedOutputType" = none := by
    rw [lookup_dictSet_ne _ _ _ _ (by decide), hscan]
    rw [lookup_dictSet_ne _ _ _ _ (by decide), lookup_dictSet_ne _ _ _ _ (by decide),
      lookup_dictSet_ne _ _ _ _ (by decide)]
    rfl
  unfold create_or_edit_save
  rw [if_neg hne, hparse]
  dsimp only
  rw [if_pos ⟨hmode, by rw [hpath]; rfl⟩]
  rw [fixMisspelled_id_of_no_misspelled _ hnomiss]
  refine ⟨dictSet (scanLines (generate_editor_template (some
      { name := some n, input := some i, expectedOutput := some o,
        expectedOutputType := none, exceptedOutputType := some t,
        context := some (JsonValue.obj []) }))).testData "context"
      (PyVal.json (JsonValue.obj [])), ?_, ?_, ?_⟩
  · rw [hpath]
    rfl
  · rw [lookup_dictSet_ne _ _ _ _ (by decide), hscan, lookup_dictSet_self]
  · exact hnomiss

/-- Witness for C3: the rename on a misspelled-only record, the no-op when
the canonical key is present, and a concrete edit-mode resave. -/
theorem claim_c3_witness :
    ((fixMisspelled [("exceptedOutputType", PyVal.str "Number")]).lookup "expectedOutputType" =
        some (PyVal.str "Number") ∧
      (fixMisspelled [("exceptedOutputType", PyVal.str "Number")]).lookup "exceptedOutputType" =
        none) ∧
    fixMisspelled [("expectedOutputType", PyVal.str "B"), ("exceptedOutputType", PyVal.str "A")] =
      [("expectedOutputType", PyVal.str "B"), ("exceptedOutputType", PyVal.str "A")] ∧
    (∃ rec, create_or_edit_save
        { editMode := true, testPath := some "tests/math/t.json", category := "math",
          filenameArg := none, targetExists := true, overwriteAnswer := "" }
        (generate_editor_template (some
          { name := some "Resave", input := some "3 + 4", expectedOutput := some "7",
            expectedOutputType := none, exceptedOutputType := some "Number",
            context := some (JsonValue.obj []) })) = (SaveOutcome.wrote "tests/math/t.json" rec, false) ∧
      rec.lookup "expectedOutputType" = some (PyVal.str "Number") ∧
      rec.lookup "exceptedOutputType" = none) :=
  ⟨claim_c3_misspelling_normalization.1 [("exceptedOutputType", PyVal.str "Number")]
      (PyVal.str "Number") rfl rfl,
   claim_c3_misspelling_normalization.2.1
      [("expectedOutputType", PyVal.str "B"), ("exceptedOutputType", PyVal.str "A")] (by rfl),
   claim_c3_misspelling_normalization.2.2 "tests/math/t.json" "Resave" "3 + 4" "7" "Number"
      { editMode := true, testPath := some "tests/math/t.json", category := "math",
        filenameArg := none, targetExists := true, overwriteAnswer := "" }
      rfl rfl (by decide) (by constructor <;> decide) (by constructor <;> decide)
      (by refine ⟨?_, ?_, ?_⟩ <;> decide)⟩

/-- Counterexample to C3 as stated: an edited record carrying both keys is
persisted with the misspelled key still present. -/
theorem claim_c3_counterexample :
    create_or_edit_save
      { editMode := true, testPath := some "tests/math/t.json", category := "math",
        filenameArg := none, targetExists := false, overwriteAnswer := "" }
      "expectedOutputType: B\nexceptedOutputType: A" =
      (SaveOutcome.wrote "tests/math/t.json"
        [("expectedOutputType", PyVal.str "B"), ("exceptedOutputType", PyVal.str "A"),
         ("context", PyVal.json (JsonValue.obj []))], false) ∧
    ¬([("expectedOutputType", PyVal.str "B"), ("exceptedOutputType", PyVal.str "A"),
       ("context", PyVal.json (JsonValue.obj []))].lookup "exceptedOutputType") = none := by
  constructor
  · rfl
  · intro h
    have h2 : ([("expectedOutputType", PyVal.str "B"), ("exceptedOutputType", PyVal.str "A"),
        ("context", PyVal.json (JsonValue.obj []))].lookup "exceptedOutputType") =
        some (PyVal.str "A") := rfl
    rw [h2] at h
    exact Option.noConfusion h
